import Mathlib

/-!
# NovAtel EDIE: CRC-32 unit and message filter

A shallow embedding of two units of the decoder library and the properties proved of them.

* `src/decoders/common/api/crc32.hpp`: the table-driven CRC-32 (`uiCRCTable`,
  `CalculateCharacterCRC32`, `CalculateBlockCRC32`).
* `src/decoders/novatel/src/filter.cpp`: the metadata filter (`oem.Filter`), its configuration
  methods, its five predicates and `DoFiltering`.

Conventions. A `uint32_t`, `uint16_t` or `unsigned char` is a natural number; a theorem that
needs the value to be in range says so in a hypothesis, and a conversion that can wrap is written
with an explicit `% 2 ^ 32`. A `double` reaches the filter only through
`static_cast<uint32_t>(...)`, so the embedding carries the value of that cast. Code whose
behaviour is undefined on some input (a read past the buffer, a remainder modulo zero) returns an
`Option` that is `none` there.
-/

/-! ## Definitions: CRC-32 (crc32.hpp) -/

/-- The body of the inner loop of the table initialiser (crc32.hpp:51):
`crc = (crc & 1) ? (crc >> 1) ^ 0xEDB88320L : crc >> 1`, stored back into a `uint32_t`. -/
def crcTableStep (crc : Nat) : Nat :=
  if crc &&& 1 ≠ 0 then ((crc >>> 1) ^^^ 0xEDB88320) % 2 ^ 32 else crc >>> 1

/-- The table `uiCRCTable` (crc32.hpp:42): entry `i`, for `i` from 0 to 255, is `i` after eight
passes of the inner loop. -/
def uiCRCTable : List Nat :=
  (List.range 256).map fun i => crcTableStep^[8] i

/-- The conversion `static_cast<int32_t>(u)` of a `uint32_t`: the two's-complement reading of
the same 32 bits. -/
def toInt32 (u : Nat) : Int :=
  if u % 2 ^ 32 < 2 ^ 31 then Int.ofNat (u % 2 ^ 32) else Int.ofNat (u % 2 ^ 32) - 2 ^ 32

/-- The operator `&` on two's-complement integers. It is `Int.land` (see `landInt_eq_land`),
written with the bitwise operations on `Nat` that evaluate by reduction. -/
def landInt : Int → Int → Int
  | Int.ofNat m, Int.ofNat n => Int.ofNat (m &&& n)
  | Int.ofNat m, Int.negSucc n => Int.ofNat (m ^^^ (m &&& n))
  | Int.negSucc m, Int.ofNat n => Int.ofNat (n ^^^ (n &&& m))
  | Int.negSucc m, Int.negSucc n => Int.negSucc (m ||| n)

/-- `CalculateCharacterCRC32` (crc32.hpp:62). The index is computed on `int`, as in the source:
`(static_cast<int32_t>(uiCRC) ^ ucChar) & 0xff`, then converted to `uint32_t`. The table is read
at that index (`0` stands for a read outside the table, which `crcIndex_eq` excludes). -/
def CalculateCharacterCRC32 (uiCRC ucChar : Nat) : Nat :=
  let uiIndex : Nat := (landInt (Int.xor (toInt32 uiCRC) (Int.ofNat ucChar)) 0xff).toNat % 2 ^ 32
  (((uiCRC >>> 8) &&& 0x00FFFFFF) ^^^ uiCRCTable.getD uiIndex 0) % 2 ^ 32

/-- `CalculateBlockCRC32` (crc32.hpp:71). The buffer behind `ucBuffer` is the list of its bytes;
`while (uiCount-- != 0)` consumes one byte per pass, and a pass that finds no byte left reads
past the buffer, which is `none`. -/
def CalculateBlockCRC32 : Nat → Nat → List Nat → Option Nat
  | 0, uiCRC, _ => some uiCRC
  | _ + 1, _, [] => none
  | uiCount + 1, uiCRC, c :: ucBuffer =>
    CalculateBlockCRC32 uiCount (CalculateCharacterCRC32 uiCRC c) ucBuffer

/-- One bit of the reference CRC-32, in the words of the specification: the state becomes
`(state >> 1) xor 0xEDB88320` if its low bit is 1, else `state >> 1`. -/
def crcBitStep (state : Nat) : Nat :=
  if state &&& 1 = 1 then (state >>> 1) ^^^ 0xEDB88320 else state >>> 1

/-- One byte of the reference CRC-32: the byte is xored into the low 8 bits of the state, then
the bit step runs 8 times. -/
def crcBitwiseByte (state byte : Nat) : Nat := crcBitStep^[8] (state ^^^ byte)

/-- The bit-by-bit reference CRC-32 of a byte sequence from a start state: no initial value
other than the start state, no final XOR. -/
def crcBitwise (state : Nat) (bytes : List Nat) : Nat := bytes.foldl crcBitwiseByte state

/-- The four bytes of a 32-bit value in little-endian order, least significant byte first. -/
def littleEndian32 (v : Nat) : List Nat :=
  [v % 256, (v >>> 8) % 256, (v >>> 16) % 256, (v >>> 24) % 256]

/-! ## Definitions: message filter (filter.cpp) -/

namespace oem

/-- Modelled from the spec: the enumeration `HEADERFORMAT`, whose declaration (in a header the
filter includes) is not among the sources. Its values are the wire-format tags the specification
lists, and `ALL`, the wildcard that filter.cpp compares the entries of the message-id and
message-name lists with. -/
inductive HEADERFORMAT
  | UNKNOWN
  | BINARY
  | SHORT_BINARY
  | ASCII
  | SHORT_ASCII
  | ABB_ASCII
  | NMEA
  | JSON
  | ALL
  deriving DecidableEq

/-- Modelled from the spec: the enumeration `MEASUREMENT_SOURCE`, whose declaration is not
among the sources: which receiver chain produced the message (primary, secondary, unknown). -/
inductive MEASUREMENT_SOURCE
  | PRIMARY
  | SECONDARY
  | UNKNOWN
  deriving DecidableEq

/-- Modelled from the spec: the enumeration `TIME_STATUS`, whose declaration is not among the
sources; the specification does not list its values, so a status is carried as its numeric
value. -/
abbrev TIME_STATUS := Nat

/-- Modelled from the spec: the structure `MetaDataStruct`, whose declaration is not among the
sources, restricted to the members filter.cpp reads. `usWeek` and `usMessageID` are 16-bit
unsigned, and the filter widens them to `uint32_t`, which changes no value. `dMilliseconds` is a
`double` that the filter reads only through `static_cast<uint32_t>(stMetaData_.dMilliseconds)`;
the field holds the value of that cast. `MessageName` holds what the accessor `MessageName()`
returns. -/
structure MetaDataStruct where
  eFormat : HEADERFORMAT
  eMeasurementSource : MEASUREMENT_SOURCE
  eTimeStatus : TIME_STATUS
  usWeek : Nat
  dMilliseconds : Nat
  usMessageID : Nat
  MessageName : String
  deriving DecidableEq

/-- The member functions that `vMyFilterFunctions` may point to. Two member-function pointers
compare equal exactly when they name the same member. -/
inductive FilterFunction
  | FilterTime
  | FilterDecimation
  | FilterTimeStatus
  | FilterMessageId
  | FilterMessage
  deriving DecidableEq, Fintype

/-- The data members of `Filter` (the logger apart). -/
structure Filter where
  vMyFilterFunctions : List FilterFunction
  vMyTimeStatusFilters : List TIME_STATUS
  bMyInvertTimeStatusFilter : Bool
  vMyMessageIdFilters : List (Nat × HEADERFORMAT × MEASUREMENT_SOURCE)
  bMyInvertMessageIdFilter : Bool
  vMyMessageNameFilters : List (String × HEADERFORMAT × MEASUREMENT_SOURCE)
  bMyInvertMessageNameFilter : Bool
  uiMyLowerWeek : Nat
  uiMyLowerMSec : Nat
  uiMyUpperWeek : Nat
  uiMyUpperMSec : Nat
  bMyFilterLowerTime : Bool
  bMyFilterUpperTime : Bool
  bMyInvertTimeFilter : Bool
  uiMyDecimationPeriodMS : Nat
  bMyDecimate : Bool
  bMyInvertDecimation : Bool
  bMyIncludeNMEA_ : Bool
  deriving DecidableEq

/-- `Filter::PushUnique` (filter.cpp:71). -/
def Filter.PushUnique (f : Filter) (filter : FilterFunction) : Filter :=
  if filter ∉ f.vMyFilterFunctions then
    { f with vMyFilterFunctions := f.vMyFilterFunctions ++ [filter] }
  else f

/-- `Filter::SetIncludeLowerTimeBound` (filter.cpp:81). `uiMSec_` is the value of
`static_cast<uint32_t>(dSec_ * 1000.0)`. -/
def Filter.SetIncludeLowerTimeBound (f : Filter) (uiWeek_ uiMSec_ : Nat) : Filter :=
  Filter.PushUnique
    { f with bMyFilterLowerTime := true, uiMyLowerWeek := uiWeek_, uiMyLowerMSec := uiMSec_ }
    FilterFunction.FilterTime

/-- `Filter::SetIncludeUpperTimeBound` (filter.cpp:91). `uiMSec_` is the value of
`static_cast<uint32_t>(dSec_ * 1000.0)`. -/
def Filter.SetIncludeUpperTimeBound (f : Filter) (uiWeek_ uiMSec_ : Nat) : Filter :=
  Filter.PushUnique
    { f with bMyFilterUpperTime := true, uiMyUpperWeek := uiWeek_, uiMyUpperMSec := uiMSec_ }
    FilterFunction.FilterTime

/-- `Filter::InvertTimeFilter` (filter.cpp:101). -/
def Filter.InvertTimeFilter (f : Filter) (bInvert_ : Bool) : Filter :=
  { f with bMyInvertTimeFilter := bInvert_ }

/-- `Filter::SetIncludeDecimation` (filter.cpp:108). `uiPeriodMSec_` is the value of
`static_cast<uint32_t>(dPeriodSec_ * 1000.0)`. -/
def Filter.SetIncludeDecimation (f : Filter) (uiPeriodMSec_ : Nat) : Filter :=
  Filter.PushUnique
    { f with bMyDecimate := true, uiMyDecimationPeriodMS := uiPeriodMSec_ }
    FilterFunction.FilterDecimation

/-- `Filter::InvertDecimationFilter` (filter.cpp:117). -/
def Filter.InvertDecimationFilter (f : Filter) (bInvert_ : Bool) : Filter :=
  { f with bMyInvertDecimation := bInvert_ }

/-- `Filter::IncludeTimeStatus(TIME_STATUS)` (filter.cpp:124). -/
def Filter.IncludeTimeStatus (f : Filter) (eTimeStatus_ : TIME_STATUS) : Filter :=
  Filter.PushUnique
    { f with vMyTimeStatusFilters := f.vMyTimeStatusFilters ++ [eTimeStatus_] }
    FilterFunction.FilterTimeStatus

/-- `Filter::IncludeTimeStatus(std::vector<TIME_STATUS>)` (filter.cpp:132). -/
def Filter.IncludeTimeStatuses (f : Filter) (vTimeStatuses_ : List TIME_STATUS) : Filter :=
  Filter.PushUnique
    { f with vMyTimeStatusFilters := f.vMyTimeStatusFilters ++ vTimeStatuses_ }
    FilterFunction.FilterTimeStatus

/-- `Filter::InvertTimeStatusFilter` (filter.cpp:140). -/
def Filter.InvertTimeStatusFilter (f : Filter) (bInvert_ : Bool) : Filter :=
  { f with bMyInvertTimeStatusFilter := bInvert_ }

/-- `Filter::IncludeMessageId(uint32_t, HEADERFORMAT, MEASUREMENT_SOURCE)` (filter.cpp:147). -/
def Filter.IncludeMessageId (f : Filter) (uiId_ : Nat) (eFormat_ : HEADERFORMAT)
    (eSource_ : MEASUREMENT_SOURCE) : Filter :=
  Filter.PushUnique
    { f with vMyMessageIdFilters := f.vMyMessageIdFilters ++ [(uiId_, eFormat_, eSource_)] }
    FilterFunction.FilterMessageId

/-- `Filter::IncludeMessageId(std::vector<std::tuple<...>>&)` (filter.cpp:155). -/
def Filter.IncludeMessageIds (f : Filter)
    (vIds_ : List (Nat × HEADERFORMAT × MEASUREMENT_SOURCE)) : Filter :=
  Filter.PushUnique
    { f with vMyMessageIdFilters := f.vMyMessageIdFilters ++ vIds_ }
    FilterFunction.FilterMessageId

/-- `Filter::InvertMessageIdFilter` (filter.cpp:163). -/
def Filter.InvertMessageIdFilter (f : Filter) (bInvert_ : Bool) : Filter :=
  { f with bMyInvertMessageIdFilter := bInvert_ }

/-- `Filter::IncludeMessageName(std::string, HEADERFORMAT, MEASUREMENT_SOURCE)`
(filter.cpp:170). -/
def Filter.IncludeMessageName (f : Filter) (szMsgName_ : String) (eFormat_ : HEADERFORMAT)
    (eSource_ : MEASUREMENT_SOURCE) : Filter :=
  Filter.PushUnique
    { f with
      vMyMessageNameFilters := f.vMyMessageNameFilters ++ [(szMsgName_, eFormat_, eSource_)] }
    FilterFunction.FilterMessage

/-- `Filter::IncludeMessageName(std::vector<std::tuple<...>>&)` (filter.cpp:178). -/
def Filter.IncludeMessageNames (f : Filter)
    (vNames_ : List (String × HEADERFORMAT × MEASUREMENT_SOURCE)) : Filter :=
  Filter.PushUnique
    { f with vMyMessageNameFilters := f.vMyMessageNameFilters ++ vNames_ }
    FilterFunction.FilterMessage

/-- `Filter::InvertMessageNameFilter` (filter.cpp:186). -/
def Filter.InvertMessageNameFilter (f : Filter) (bInvert_ : Bool) : Filter :=
  { f with bMyInvertMessageNameFilter := bInvert_ }

/-- `Filter::IncludeNMEAMessages` (filter.cpp:193). -/
def Filter.IncludeNMEAMessages (f : Filter) (bIncludeNMEA_ : Bool) : Filter :=
  { f with bMyIncludeNMEA_ := bIncludeNMEA_ }

/-- `Filter::ClearFilters` (filter.cpp:200): every data member is assigned, so the result does
not depend on the state it is applied to. -/
def Filter.ClearFilters (_f : Filter) : Filter :=
  { vMyTimeStatusFilters := []
    bMyInvertTimeStatusFilter := false
    vMyMessageIdFilters := []
    bMyInvertMessageIdFilter := false
    vMyMessageNameFilters := []
    bMyInvertMessageNameFilter := false
    uiMyLowerWeek := 0
    uiMyLowerMSec := 0
    uiMyUpperWeek := 0
    uiMyUpperMSec := 0
    bMyFilterLowerTime := false
    bMyFilterUpperTime := false
    bMyInvertTimeFilter := false
    uiMyDecimationPeriodMS := 0
    bMyDecimate := false
    bMyInvertDecimation := false
    bMyIncludeNMEA_ := false
    vMyFilterFunctions := [] }

/-- The constructor `Filter::Filter()` (filter.cpp:40), named `ctor` because `Filter.Filter`
would hide the type inside its own namespace. It runs `ClearFilters` on the new object,
whose vectors are empty; the scalar members have no value yet and are all assigned there. -/
def Filter.ctor : Filter :=
  Filter.ClearFilters
    { vMyFilterFunctions := []
      vMyTimeStatusFilters := []
      bMyInvertTimeStatusFilter := false
      vMyMessageIdFilters := []
      bMyInvertMessageIdFilter := false
      vMyMessageNameFilters := []
      bMyInvertMessageNameFilter := false
      uiMyLowerWeek := 0
      uiMyLowerMSec := 0
      uiMyUpperWeek := 0
      uiMyUpperMSec := 0
      bMyFilterLowerTime := false
      bMyFilterUpperTime := false
      bMyInvertTimeFilter := false
      uiMyDecimationPeriodMS := 0
      bMyDecimate := false
      bMyInvertDecimation := false
      bMyIncludeNMEA_ := false }

/-- `Filter::FilterTime` (filter.cpp:229). -/
def Filter.FilterTime (f : Filter) (stMetaData_ : MetaDataStruct) : Bool :=
  let usMetaDataWeek := stMetaData_.usWeek
  let usMetaDataMilliseconds := stMetaData_.dMilliseconds
  if f.bMyInvertTimeFilter then
    let bAboveLowerTime : Bool := decide (usMetaDataWeek > f.uiMyLowerWeek)
      || (decide (usMetaDataWeek = f.uiMyLowerWeek)
          && decide (usMetaDataMilliseconds ≥ f.uiMyLowerMSec))
    let bBelowUpperTime : Bool := decide (usMetaDataWeek < f.uiMyUpperWeek)
      || (decide (usMetaDataWeek = f.uiMyUpperWeek)
          && decide (usMetaDataMilliseconds ≤ f.uiMyUpperMSec))
    if f.bMyFilterLowerTime && f.bMyFilterUpperTime then
      !(bAboveLowerTime && bBelowUpperTime)
    else
      !((bAboveLowerTime && f.bMyFilterLowerTime) || (bBelowUpperTime && f.bMyFilterUpperTime))
  else
    let bBelowLowerTime : Bool := decide (usMetaDataWeek < f.uiMyLowerWeek)
      || (decide (usMetaDataWeek = f.uiMyLowerWeek)
          && decide (usMetaDataMilliseconds < f.uiMyLowerMSec))
    let bAboveUpperTime : Bool := decide (usMetaDataWeek > f.uiMyUpperWeek)
      || (decide (usMetaDataWeek = f.uiMyUpperWeek)
          && decide (usMetaDataMilliseconds > f.uiMyUpperMSec))
    !((f.bMyFilterLowerTime && bBelowLowerTime) || (f.bMyFilterUpperTime && bAboveUpperTime))

/-- `Filter::FilterTimeStatus` (filter.cpp:256). -/
def Filter.FilterTimeStatus (f : Filter) (stMetaData_ : MetaDataStruct) : Bool :=
  f.vMyTimeStatusFilters.isEmpty
    || (f.bMyInvertTimeStatusFilter
        == !(f.vMyTimeStatusFilters.contains stMetaData_.eTimeStatus))

/-- `Filter::FilterMessageId` (filter.cpp:264). -/
def Filter.FilterMessageId (f : Filter) (stMetaData_ : MetaDataStruct) : Bool :=
  if f.vMyMessageIdFilters.isEmpty then true
  else
    let uiMessageId := stMetaData_.usMessageID
    let eFormat := stMetaData_.eFormat
    let eSource := stMetaData_.eMeasurementSource
    let isMessageIDFilterMatch := fun (elem : Nat × HEADERFORMAT × MEASUREMENT_SOURCE) =>
      decide (uiMessageId = elem.1) && decide (HEADERFORMAT.ALL = elem.2.1)
        && decide (eSource = elem.2.2)
    f.bMyInvertMessageIdFilter
      == (!(f.vMyMessageIdFilters.any isMessageIDFilterMatch)
          && !(f.vMyMessageIdFilters.contains (uiMessageId, eFormat, eSource)))

/-- `Filter::FilterMessage` (filter.cpp:285). -/
def Filter.FilterMessage (f : Filter) (stMetaData_ : MetaDataStruct) : Bool :=
  if f.vMyMessageNameFilters.isEmpty then true
  else
    let szMessageName := stMetaData_.MessageName
    let eFormat := stMetaData_.eFormat
    let eSource := stMetaData_.eMeasurementSource
    let isMessageNameFilterMatch := fun (elem : String × HEADERFORMAT × MEASUREMENT_SOURCE) =>
      decide (szMessageName = elem.1) && decide (HEADERFORMAT.ALL = elem.2.1)
        && decide (eSource = elem.2.2)
    f.bMyInvertMessageNameFilter
      == (!(f.vMyMessageNameFilters.any isMessageNameFilterMatch)
          && !(f.vMyMessageNameFilters.contains (szMessageName, eFormat, eSource)))

/-- `Filter::FilterDecimation` (filter.cpp:306). The remainder is only taken when `bMyDecimate`
is set; taking it modulo a zero period is undefined in the source and yields `none` here. -/
def Filter.FilterDecimation (f : Filter) (stMetaData_ : MetaDataStruct) : Option Bool :=
  if !f.bMyDecimate then some true
  else if f.uiMyDecimationPeriodMS = 0 then none
  else some (f.bMyInvertDecimation
    == decide (stMetaData_.dMilliseconds % f.uiMyDecimationPeriodMS ≠ 0))

/-- The call `(this->*fn)(stMetaData_)` through a stored member-function pointer. -/
def Filter.call (f : Filter) (fn : FilterFunction) (stMetaData_ : MetaDataStruct) :
    Option Bool :=
  match fn with
  | FilterFunction.FilterTime => some (f.FilterTime stMetaData_)
  | FilterFunction.FilterDecimation => f.FilterDecimation stMetaData_
  | FilterFunction.FilterTimeStatus => some (f.FilterTimeStatus stMetaData_)
  | FilterFunction.FilterMessageId => some (f.FilterMessageId stMetaData_)
  | FilterFunction.FilterMessage => some (f.FilterMessage stMetaData_)

/-- The loop of `Filter::DoFiltering` (filter.cpp:324) over the pointers not yet visited. -/
def Filter.DoFilteringLoop (f : Filter) (stMetaData_ : MetaDataStruct) :
    List FilterFunction → Option Bool
  | [] => some true
  | fn :: rest =>
    match f.call fn stMetaData_ with
    | none => none
    | some false => some false
    | some true => Filter.DoFilteringLoop f stMetaData_ rest

/-- `Filter::DoFiltering` (filter.cpp:313). -/
def Filter.DoFiltering (f : Filter) (stMetaData_ : MetaDataStruct) : Option Bool :=
  if stMetaData_.eFormat = HEADERFORMAT.UNKNOWN then some false
  else if stMetaData_.eFormat = HEADERFORMAT.NMEA then some f.bMyIncludeNMEA_
  else Filter.DoFilteringLoop f stMetaData_ f.vMyFilterFunctions

/-- One call of a configuration method of `Filter`, with its arguments. -/
inductive ConfigCall
  | SetIncludeLowerTimeBound (uiWeek_ uiMSec_ : Nat)
  | SetIncludeUpperTimeBound (uiWeek_ uiMSec_ : Nat)
  | InvertTimeFilter (bInvert_ : Bool)
  | SetIncludeDecimation (uiPeriodMSec_ : Nat)
  | InvertDecimationFilter (bInvert_ : Bool)
  | IncludeTimeStatus (eTimeStatus_ : TIME_STATUS)
  | IncludeTimeStatuses (vTimeStatuses_ : List TIME_STATUS)
  | InvertTimeStatusFilter (bInvert_ : Bool)
  | IncludeMessageId (uiId_ : Nat) (eFormat_ : HEADERFORMAT) (eSource_ : MEASUREMENT_SOURCE)
  | IncludeMessageIds (vIds_ : List (Nat × HEADERFORMAT × MEASUREMENT_SOURCE))
  | InvertMessageIdFilter (bInvert_ : Bool)
  | IncludeMessageName (szMsgName_ : String) (eFormat_ : HEADERFORMAT)
      (eSource_ : MEASUREMENT_SOURCE)
  | IncludeMessageNames (vNames_ : List (String × HEADERFORMAT × MEASUREMENT_SOURCE))
  | InvertMessageNameFilter (bInvert_ : Bool)
  | IncludeNMEAMessages (bIncludeNMEA_ : Bool)
  | ClearFilters
  deriving DecidableEq

/-- The effect of one configuration call on the filter. -/
def Filter.configure (f : Filter) : ConfigCall → Filter
  | ConfigCall.SetIncludeLowerTimeBound w ms => f.SetIncludeLowerTimeBound w ms
  | ConfigCall.SetIncludeUpperTimeBound w ms => f.SetIncludeUpperTimeBound w ms
  | ConfigCall.InvertTimeFilter b => f.InvertTimeFilter b
  | ConfigCall.SetIncludeDecimation p => f.SetIncludeDecimation p
  | ConfigCall.InvertDecimationFilter b => f.InvertDecimationFilter b
  | ConfigCall.IncludeTimeStatus e => f.IncludeTimeStatus e
  | ConfigCall.IncludeTimeStatuses v => f.IncludeTimeStatuses v
  | ConfigCall.InvertTimeStatusFilter b => f.InvertTimeStatusFilter b
  | ConfigCall.IncludeMessageId i e s => f.IncludeMessageId i e s
  | ConfigCall.IncludeMessageIds v => f.IncludeMessageIds v
  | ConfigCall.InvertMessageIdFilter b => f.InvertMessageIdFilter b
  | ConfigCall.IncludeMessageName n e s => f.IncludeMessageName n e s
  | ConfigCall.IncludeMessageNames v => f.IncludeMessageNames v
  | ConfigCall.InvertMessageNameFilter b => f.InvertMessageNameFilter b
  | ConfigCall.IncludeNMEAMessages b => f.IncludeNMEAMessages b
  | ConfigCall.ClearFilters => f.ClearFilters

/-- The filter obtained from a newly constructed one by a sequence of configuration calls. -/
def Filter.configured (calls : List ConfigCall) : Filter :=
  calls.foldl Filter.configure Filter.ctor

/-- The NMEA opt-in setting a sequence of configuration calls amounts to, in the words of the
specification: the argument of the last `IncludeNMEAMessages` call when no `ClearFilters` call
follows it, and `false` (the default) when there is none. -/
def lastNMEASetting (calls : List ConfigCall) : Bool :=
  match calls.reverse.find? fun c =>
      match c with
      | ConfigCall.IncludeNMEAMessages _ => true
      | ConfigCall.ClearFilters => true
      | _ => false with
  | some (ConfigCall.IncludeNMEAMessages b) => b
  | _ => false

/-- Every configured dimension has its predicate registered: the invariant behind "a predicate is
absent from `vMyFilterFunctions` only when its dimension is unconfigured". -/
def Filter.ConfiguredRegistered (f : Filter) : Prop :=
  ((f.bMyFilterLowerTime = true ∨ f.bMyFilterUpperTime = true) →
      FilterFunction.FilterTime ∈ f.vMyFilterFunctions)
  ∧ (f.bMyDecimate = true → FilterFunction.FilterDecimation ∈ f.vMyFilterFunctions)
  ∧ (f.vMyTimeStatusFilters ≠ [] → FilterFunction.FilterTimeStatus ∈ f.vMyFilterFunctions)
  ∧ (f.vMyMessageIdFilters ≠ [] → FilterFunction.FilterMessageId ∈ f.vMyFilterFunctions)
  ∧ (f.vMyMessageNameFilters ≠ [] → FilterFunction.FilterMessage ∈ f.vMyFilterFunctions)

end oem

/-! ## Theorems: CRC-32 -/

theorem landInt_eq_land (a b : Int) : landInt a b = Int.land a b := by
  have key : ∀ m n : Nat, m ^^^ (m &&& n) = Nat.ldiff m n := by
    intro m n
    apply Nat.eq_of_testBit_eq
    intro i
    rw [Nat.testBit_ldiff]
    simp only [Nat.testBit_xor, Nat.testBit_and]
    cases m.testBit i <;> cases n.testBit i <;> rfl
  cases a <;> cases b <;> simp [landInt, Int.land, key]

theorem testBit_255 (i : Nat) : Nat.testBit 255 i = decide (i < 8) := by
  have := Nat.testBit_two_pow_sub_one 8 i
  simpa using this

theorem crcIndex_eq (s c : Nat) (hs : s < 2 ^ 32) :
    (landInt (Int.xor (toInt32 s) (Int.ofNat c)) 0xff).toNat % 2 ^ 32 = (s ^^^ c) % 256 := by
  have h256 : (s ^^^ c) % 256 < 2 ^ 32 := lt_of_lt_of_le (Nat.mod_lt _ (by norm_num)) (by norm_num)
  unfold toInt32
  rw [Nat.mod_eq_of_lt hs]
  split
  · have e1 : Int.xor (Int.ofNat s) (Int.ofNat c) = Int.ofNat (s ^^^ c) := rfl
    have e2 : landInt (Int.ofNat (s ^^^ c)) 0xff = Int.ofNat ((s ^^^ c) &&& 255) := rfl
    rw [e1, e2]
    show ((s ^^^ c) &&& 255) % 2 ^ 32 = _
    have := Nat.and_pow_two_sub_one_eq_mod (s ^^^ c) 8
    norm_num at this
    rw [this, Nat.mod_eq_of_lt h256]
  · rename_i hneg
    have e0 : Int.ofNat s - 2 ^ 32 = Int.negSucc (2 ^ 32 - (s + 1)) := by
      rw [Int.negSucc_eq]
      simp only [Int.ofNat_eq_coe]
      omega
    have e1 : Int.xor (Int.negSucc (2 ^ 32 - (s + 1))) (Int.ofNat c)
        = Int.negSucc ((2 ^ 32 - (s + 1)) ^^^ c) := rfl
    have e2 : landInt (Int.negSucc ((2 ^ 32 - (s + 1)) ^^^ c)) 0xff
        = Int.ofNat (255 ^^^ (255 &&& ((2 ^ 32 - (s + 1)) ^^^ c))) := rfl
    rw [e0, e1, e2]
    show (255 ^^^ (255 &&& ((2 ^ 32 - (s + 1)) ^^^ c))) % 2 ^ 32 = _
    have e3 : 255 ^^^ (255 &&& ((2 ^ 32 - (s + 1)) ^^^ c)) = (s ^^^ c) % 256 := by
      apply Nat.eq_of_testBit_eq
      intro i
      have hm : (s ^^^ c) % 256 = (s ^^^ c) % 2 ^ 8 := by norm_num
      rw [hm, Nat.testBit_mod_two_pow]
      simp only [Nat.testBit_xor, Nat.testBit_and, testBit_255,
        Nat.testBit_two_pow_sub_succ hs]
      by_cases h8 : i < 8
      · have h32 : i < 32 := by omega
        simp [h8, h32]
      · simp [h8]
    rw [e3, Nat.mod_eq_of_lt h256]

theorem crcBitStep_eq (x : Nat) :
    crcBitStep x = (x >>> 1) ^^^ (if x % 2 = 1 then 0xEDB88320 else 0) := by
  unfold crcBitStep
  rw [Nat.and_one_is_mod]
  split <;> simp

theorem shiftRight_xor (x y k : Nat) : (x ^^^ y) >>> k = (x >>> k) ^^^ (y >>> k) := by
  apply Nat.eq_of_testBit_eq
  intro i
  simp only [Nat.testBit_shiftRight, Nat.testBit_xor]

theorem crcBitStep_xor (x y : Nat) :
    crcBitStep (x ^^^ y) = crcBitStep x ^^^ crcBitStep y := by
  simp only [crcBitStep_eq, shiftRight_xor, Nat.xor_mod_two_eq_one]
  generalize x >>> 1 = a
  generalize y >>> 1 = b
  generalize (3988292384 : Nat) = p
  by_cases hx : x % 2 = 1 <;> by_cases hy : y % 2 = 1 <;> simp only [hx, hy, if_true, if_false,
      not_true_eq_false, not_false_eq_true, iff_true, iff_false, true_iff, false_iff] <;>
    apply Nat.eq_of_testBit_eq <;> intro i <;>
    simp only [Nat.testBit_xor, Nat.zero_testBit] <;>
    cases a.testBit i <;> cases b.testBit i <;> cases p.testBit i <;> rfl

theorem crcBitStep_iterate_xor (k x y : Nat) :
    crcBitStep^[k] (x ^^^ y) = crcBitStep^[k] x ^^^ crcBitStep^[k] y := by
  induction k generalizing x y with
  | zero => rfl
  | succ k ih => simp only [Function.iterate_succ_apply, crcBitStep_xor, ih]

theorem crcBitStep_iterate_shiftLeft (k h : Nat) : crcBitStep^[k] (h <<< k) = h := by
  induction k with
  | zero => rfl
  | succ k ih =>
    have hstep : crcBitStep (h <<< (k + 1)) = h <<< k := by
      rw [crcBitStep_eq]
      have h1 : (h <<< (k + 1)) % 2 = 0 := by
        rw [Nat.shiftLeft_eq, Nat.pow_succ, ← Nat.mul_assoc]
        exact Nat.mul_mod_left _ _
      have h2 : (h <<< (k + 1)) >>> 1 = h <<< k := by
        rw [Nat.shiftLeft_eq, Nat.shiftLeft_eq, Nat.shiftRight_eq_div_pow, Nat.pow_succ,
          ← Nat.mul_assoc]
        simp
      rw [h1, h2]
      simp
    rw [Function.iterate_succ_apply, hstep, ih]

theorem split_low_byte (x : Nat) : x = ((x >>> 8) <<< 8) ^^^ (x % 256) := by
  apply Nat.eq_of_testBit_eq
  intro i
  have hm : x % 256 = x % 2 ^ 8 := by norm_num
  rw [hm, Nat.testBit_xor, Nat.testBit_mod_two_pow, Nat.testBit_shiftLeft, Nat.testBit_shiftRight]
  by_cases h8 : i < 8
  · have : ¬ i ≥ 8 := by omega
    simp [h8, this]
  · have h8b : i ≥ 8 := by omega
    have : 8 + (i - 8) = i := by omega
    simp [h8, h8b, this]

theorem crcBitStep_iterate_eight (x : Nat) :
    crcBitStep^[8] x = (x >>> 8) ^^^ crcBitStep^[8] (x % 256) := by
  conv_lhs => rw [split_low_byte x]
  rw [crcBitStep_iterate_xor, crcBitStep_iterate_shiftLeft]

theorem crcBitStep_lt (x : Nat) (hx : x < 2 ^ 32) : crcBitStep x < 2 ^ 32 := by
  rw [crcBitStep_eq]
  apply Nat.xor_lt_two_pow
  · rw [Nat.shiftRight_eq_div_pow]
    exact lt_of_le_of_lt (Nat.div_le_self _ _) hx
  · split <;> norm_num

theorem crcTableStep_eq (x : Nat) (hx : x < 2 ^ 32) : crcTableStep x = crcBitStep x := by
  have hlt := crcBitStep_lt x hx
  unfold crcBitStep at hlt ⊢
  unfold crcTableStep
  rw [Nat.and_one_is_mod] at hlt ⊢
  by_cases h : x % 2 = 1
  · have h0 : x % 2 ≠ 0 := by omega
    simp only [h, h0, ne_eq, not_false_eq_true, if_true] at hlt ⊢
    exact Nat.mod_eq_of_lt hlt
  · have h0 : x % 2 = 0 := by omega
    simp [h0]

theorem crcBitStep_iterate_lt (k x : Nat) (hx : x < 2 ^ 32) : crcBitStep^[k] x < 2 ^ 32 := by
  induction k generalizing x with
  | zero => exact hx
  | succ k ih => rw [Function.iterate_succ_apply]; exact ih _ (crcBitStep_lt x hx)

theorem crcTableStep_iterate_eq (k x : Nat) (hx : x < 2 ^ 32) :
    crcTableStep^[k] x = crcBitStep^[k] x := by
  induction k generalizing x with
  | zero => rfl
  | succ k ih =>
    rw [Function.iterate_succ_apply, Function.iterate_succ_apply, crcTableStep_eq x hx]
    exact ih _ (crcBitStep_lt x hx)

theorem uiCRCTable_getD (i : Nat) (hi : i < 256) :
    uiCRCTable.getD i 0 = crcBitStep^[8] i := by
  unfold uiCRCTable
  rw [List.getD_eq_getElem?_getD, List.getElem?_map, List.getElem?_range hi]
  exact crcTableStep_iterate_eq 8 i (lt_trans hi (by norm_num))

theorem CalculateCharacterCRC32_eq_bitwise (s c : Nat) (hs : s < 2 ^ 32) (hc : c < 256) :
    CalculateCharacterCRC32 s c = crcBitwiseByte s c := by
  have hx : s ^^^ c < 2 ^ 32 := Nat.xor_lt_two_pow hs (lt_trans hc (by norm_num))
  have hshift : (s ^^^ c) >>> 8 = s >>> 8 := by
    rw [shiftRight_xor]
    have : c >>> 8 = 0 := by
      rw [Nat.shiftRight_eq_div_pow]; exact Nat.div_eq_of_lt (by simpa using hc)
    rw [this, Nat.xor_zero]
  have hmask : (s >>> 8) &&& 0x00FFFFFF = s >>> 8 := by
    have h := Nat.and_pow_two_sub_one_eq_mod (s >>> 8) 24
    norm_num at h
    rw [h]
    apply Nat.mod_eq_of_lt
    rw [Nat.shiftRight_eq_div_pow]
    omega
  unfold CalculateCharacterCRC32 crcBitwiseByte
  simp only [crcIndex_eq s c hs]
  rw [uiCRCTable_getD _ (Nat.mod_lt _ (by norm_num)), hmask, crcBitStep_iterate_eight (s ^^^ c),
    hshift]
  apply Nat.mod_eq_of_lt
  rw [← hshift, ← crcBitStep_iterate_eight]
  exact crcBitStep_iterate_lt 8 _ hx

theorem CalculateCharacterCRC32_lt (s c : Nat) : CalculateCharacterCRC32 s c < 2 ^ 32 :=
  Nat.mod_lt _ (by norm_num)

theorem CalculateBlockCRC32_eq_foldl (s : Nat) (b : List Nat) :
    CalculateBlockCRC32 b.length s b = some (b.foldl CalculateCharacterCRC32 s) := by
  induction b generalizing s with
  | nil => rfl
  | cons c rest ih => exact ih (CalculateCharacterCRC32 s c)

theorem foldl_CalculateCharacterCRC32_eq_crcBitwise (s : Nat) (b : List Nat) (hs : s < 2 ^ 32)
    (hb : ∀ c ∈ b, c < 256) : b.foldl CalculateCharacterCRC32 s = crcBitwise s b := by
  induction b generalizing s with
  | nil => rfl
  | cons c rest ih =>
    have hc : c < 256 := hb c (List.mem_cons_self c rest)
    have hrest : ∀ d ∈ rest, d < 256 := fun d hd => hb d (List.mem_cons_of_mem c hd)
    have hstep := CalculateCharacterCRC32_eq_bitwise s c hs hc
    show rest.foldl CalculateCharacterCRC32 (CalculateCharacterCRC32 s c)
      = crcBitwise (crcBitwiseByte s c) rest
    rw [← hstep]
    exact ih _ (CalculateCharacterCRC32_lt s c) hrest

/-- C1: for every 32-bit start state `s` and every sequence `b` of bytes, the table-driven
`CalculateBlockCRC32(|b|, s, b)` returns the bit-by-bit reference CRC-32 of `b` from `s`
(`crcBitwise`: per byte, xor it into the low 8 bits, then 8 times shift right and xor
`0xEDB88320` when the low bit was 1), with no initial value other than `s` and no final XOR. -/
theorem CalculateBlockCRC32_eq_crcBitwise (s : Nat) (b : List Nat) (hs : s < 2 ^ 32)
    (hb : ∀ c ∈ b, c < 256) :
    CalculateBlockCRC32 b.length s b = some (crcBitwise s b) := by
  rw [CalculateBlockCRC32_eq_foldl, foldl_CalculateCharacterCRC32_eq_crcBitwise s b hs hb]

theorem CalculateBlockCRC32_eq_crcBitwise_witness :
    ((0xFFFFFFFF : Nat) < 2 ^ 32 ∧ ∀ c ∈ ([0x31, 0x32, 0x33] : List Nat), c < 256)
    ∧ CalculateBlockCRC32 3 0xFFFFFFFF [0x31, 0x32, 0x33]
      = some (crcBitwise 0xFFFFFFFF [0x31, 0x32, 0x33]) :=
  ⟨⟨by decide, by decide⟩,
    CalculateBlockCRC32_eq_crcBitwise 0xFFFFFFFF [0x31, 0x32, 0x33] (by decide) (by decide)⟩

/-- C2: the block CRC can be split anywhere and computed one character per call. For every
state `s` and byte sequences `a`, `b`, the calls on `a` from `s`, on `b` from the result `t`, and
on `a ++ b` from `s` all return, and the last two return the same value; the block CRC is the
left fold of `CalculateCharacterCRC32` over the bytes; a one-byte block equals
`CalculateCharacterCRC32`; a zero-length block returns `s` unchanged. -/
theorem CalculateBlockCRC32_append (s c : Nat) (a b : List Nat) :
    (∃ t u, CalculateBlockCRC32 a.length s a = some t
      ∧ CalculateBlockCRC32 b.length t b = some u
      ∧ CalculateBlockCRC32 (a.length + b.length) s (a ++ b) = some u)
    ∧ CalculateBlockCRC32 b.length s b = some (b.foldl CalculateCharacterCRC32 s)
    ∧ CalculateBlockCRC32 1 s [c] = some (CalculateCharacterCRC32 s c)
    ∧ CalculateBlockCRC32 0 s b = some s := by
  refine ⟨⟨a.foldl CalculateCharacterCRC32 s,
    b.foldl CalculateCharacterCRC32 (a.foldl CalculateCharacterCRC32 s),
    CalculateBlockCRC32_eq_foldl s a, CalculateBlockCRC32_eq_foldl _ b, ?_⟩,
    CalculateBlockCRC32_eq_foldl s b, rfl, ?_⟩
  · rw [← List.length_append, CalculateBlockCRC32_eq_foldl, List.foldl_append]
  · cases b <;> rfl

/-- C17: the table `uiCRCTable` has 256 entries and is the standard reflected CRC-32 table:
for every `i` from 0 to 255, entry `i` is the result of applying 8 times to `i` the step
`x & 1 ? (x >> 1) xor 0xEDB88320 : x >> 1`, which equals `CalculateCharacterCRC32(0, i)`; entries
0, 1, 128 and 255 are 0, 0x77073096, 0xEDB88320 and 0x2D02EF8D. -/
theorem uiCRCTable_entries (i : Nat) (hi : i < 256) :
    uiCRCTable.length = 256
    ∧ uiCRCTable.getD i 0 = crcBitStep^[8] i
    ∧ uiCRCTable.getD i 0 = CalculateCharacterCRC32 0 i
    ∧ uiCRCTable.getD 0 0 = 0
    ∧ uiCRCTable.getD 1 0 = 0x77073096
    ∧ uiCRCTable.getD 128 0 = 0xEDB88320
    ∧ uiCRCTable.getD 255 0 = 0x2D02EF8D := by
  refine ⟨by simp [uiCRCTable], uiCRCTable_getD i hi, ?_, by decide, by decide, by decide,
    by decide⟩
  rw [uiCRCTable_getD i hi, CalculateCharacterCRC32_eq_bitwise 0 i (by norm_num) hi]
  unfold crcBitwiseByte
  rw [Nat.zero_xor]

theorem uiCRCTable_entries_witness :
    (1 : Nat) < 256
    ∧ (uiCRCTable.length = 256
      ∧ uiCRCTable.getD 1 0 = crcBitStep^[8] 1
      ∧ uiCRCTable.getD 1 0 = CalculateCharacterCRC32 0 1
      ∧ uiCRCTable.getD 0 0 = 0
      ∧ uiCRCTable.getD 1 0 = 0x77073096
      ∧ uiCRCTable.getD 128 0 = 0xEDB88320
      ∧ uiCRCTable.getD 255 0 = 0x2D02EF8D) :=
  ⟨by decide, uiCRCTable_entries 1 (by decide)⟩

theorem CalculateCharacterCRC32_low_byte (t : Nat) (ht : t < 2 ^ 32) :
    CalculateCharacterCRC32 t (t % 256) = t >>> 8 := by
  rw [CalculateCharacterCRC32_eq_bitwise t (t % 256) ht (Nat.mod_lt _ (by norm_num))]
  unfold crcBitwiseByte
  have hx : t ^^^ t % 256 = (t >>> 8) <<< 8 := by
    conv_lhs => lhs; rw [split_low_byte t]
    rw [Nat.xor_assoc, Nat.xor_self, Nat.xor_zero]
  rw [hx, crcBitStep_iterate_shiftLeft]

theorem foldl_littleEndian32 (s : Nat) (hs : s < 2 ^ 32) :
    (littleEndian32 s).foldl CalculateCharacterCRC32 s = 0 := by
  have h8 : s >>> 8 < 2 ^ 32 := by
    rw [Nat.shiftRight_eq_div_pow]; exact lt_of_le_of_lt (Nat.div_le_self _ _) hs
  have h16 : s >>> 16 < 2 ^ 32 := by
    rw [Nat.shiftRight_eq_div_pow]; exact lt_of_le_of_lt (Nat.div_le_self _ _) hs
  have h24 : s >>> 24 < 2 ^ 32 := by
    rw [Nat.shiftRight_eq_div_pow]; exact lt_of_le_of_lt (Nat.div_le_self _ _) hs
  have e16 : s >>> 8 >>> 8 = s >>> 16 := by rw [← Nat.shiftRight_add]
  have e24 : s >>> 16 >>> 8 = s >>> 24 := by rw [← Nat.shiftRight_add]
  have e32 : s >>> 24 >>> 8 = 0 := by
    rw [← Nat.shiftRight_add, Nat.shiftRight_eq_div_pow]
    exact Nat.div_eq_of_lt hs
  show CalculateCharacterCRC32 (CalculateCharacterCRC32 (CalculateCharacterCRC32
    (CalculateCharacterCRC32 s (s % 256)) ((s >>> 8) % 256)) ((s >>> 16) % 256))
    ((s >>> 24) % 256) = 0
  rw [CalculateCharacterCRC32_low_byte s hs, CalculateCharacterCRC32_low_byte _ h8, e16,
    CalculateCharacterCRC32_low_byte _ h16, e24, CalculateCharacterCRC32_low_byte _ h24, e32]

theorem foldl_CalculateCharacterCRC32_lt (s : Nat) (m : List Nat) (hs : s < 2 ^ 32) :
    m.foldl CalculateCharacterCRC32 s < 2 ^ 32 := by
  induction m generalizing s with
  | nil => exact hs
  | cons c rest ih => exact ih _ (CalculateCharacterCRC32_lt s c)

/-- C20: CRC self-check. For every 32-bit state `s`, `CalculateBlockCRC32` over the four bytes
of `s` in little-endian order, started from `s`, returns 0. Hence for every byte sequence `m`,
the CRC from state 0 of `m` followed by the little-endian four bytes of the CRC of `m` is 0. -/
theorem CalculateBlockCRC32_self_check (s : Nat) (m : List Nat) (hs : s < 2 ^ 32) :
    CalculateBlockCRC32 4 s (littleEndian32 s) = some 0
    ∧ ∃ crc, CalculateBlockCRC32 m.length 0 m = some crc
      ∧ CalculateBlockCRC32 (m.length + 4) 0 (m ++ littleEndian32 crc) = some 0 := by
  constructor
  · have h := CalculateBlockCRC32_eq_foldl s (littleEndian32 s)
    rw [foldl_littleEndian32 s hs] at h
    exact h
  · refine ⟨m.foldl CalculateCharacterCRC32 0, CalculateBlockCRC32_eq_foldl 0 m, ?_⟩
    have hlen : m.length + 4 = (m ++ littleEndian32 (m.foldl CalculateCharacterCRC32 0)).length := by
      simp [littleEndian32]
    rw [hlen, CalculateBlockCRC32_eq_foldl, List.foldl_append,
      foldl_littleEndian32 _ (foldl_CalculateCharacterCRC32_lt 0 m (by norm_num))]

theorem CalculateBlockCRC32_self_check_witness :
    (0x12345678 : Nat) < 2 ^ 32
    ∧ (CalculateBlockCRC32 4 0x12345678 (littleEndian32 0x12345678) = some 0
      ∧ ∃ crc, CalculateBlockCRC32 ([0x31, 0x32, 0x33] : List Nat).length 0 [0x31, 0x32, 0x33]
          = some crc
        ∧ CalculateBlockCRC32 (([0x31, 0x32, 0x33] : List Nat).length + 4) 0
            ([0x31, 0x32, 0x33] ++ littleEndian32 crc) = some 0) :=
  ⟨by decide, CalculateBlockCRC32_self_check 0x12345678 [0x31, 0x32, 0x33] (by decide)⟩

theorem crcBitStep_injOn (x y : Nat) (hx : x < 2 ^ 32) (hy : y < 2 ^ 32)
    (h : crcBitStep x = crcBitStep y) : x = y := by
  rw [crcBitStep_eq, crcBitStep_eq, Nat.shiftRight_eq_div_pow, Nat.shiftRight_eq_div_pow] at h
  have hx2 : x / 2 ^ 1 < 2 ^ 31 := by omega
  have hy2 : y / 2 ^ 1 < 2 ^ 31 := by omega
  have hP : Nat.testBit 0xEDB88320 31 = true := by decide
  have mixed : ∀ u v : Nat, u < 2 ^ 31 → v < 2 ^ 31 → u ^^^ 0xEDB88320 ≠ v := by
    intro u v hu hv he
    have hb := congrArg (fun n => Nat.testBit n 31) he
    simp only [Nat.testBit_xor, Nat.testBit_lt_two_pow hu, Nat.testBit_lt_two_pow hv, hP] at hb
    exact absurd hb (by decide)
  by_cases px : x % 2 = 1 <;> by_cases py : y % 2 = 1
  · simp only [px, py, if_true] at h
    have := Nat.xor_left_inj.mp h
    omega
  · simp only [px, py, if_true, if_false, Nat.xor_zero] at h
    exact absurd h (mixed _ _ hx2 hy2)
  · simp only [px, py, if_true, if_false, Nat.xor_zero] at h
    exact absurd h.symm (mixed _ _ hy2 hx2)
  · simp only [px, py, if_false, Nat.xor_zero] at h
    omega

theorem crcBitStep_iterate_injOn (k x y : Nat) (hx : x < 2 ^ 32) (hy : y < 2 ^ 32)
    (h : crcBitStep^[k] x = crcBitStep^[k] y) : x = y := by
  induction k generalizing x y with
  | zero => exact h
  | succ k ih =>
    rw [Function.iterate_succ_apply, Function.iterate_succ_apply] at h
    exact crcBitStep_injOn x y hx hy (ih _ _ (crcBitStep_lt x hx) (crcBitStep_lt y hy) h)

theorem byte_lt_two_pow_32 (c : Nat) (hc : c < 256) : c < 2 ^ 32 :=
  lt_trans hc (by norm_num)

theorem CalculateCharacterCRC32_inj_state (s1 s2 c : Nat) (h1 : s1 < 2 ^ 32) (h2 : s2 < 2 ^ 32)
    (hc : c < 256) (h : CalculateCharacterCRC32 s1 c = CalculateCharacterCRC32 s2 c) :
    s1 = s2 := by
  rw [CalculateCharacterCRC32_eq_bitwise s1 c h1 hc,
    CalculateCharacterCRC32_eq_bitwise s2 c h2 hc] at h
  have hc32 := byte_lt_two_pow_32 c hc
  exact Nat.xor_left_inj.mp (crcBitStep_iterate_injOn 8 _ _ (Nat.xor_lt_two_pow h1 hc32)
    (Nat.xor_lt_two_pow h2 hc32) h)

theorem CalculateCharacterCRC32_inj_byte (s c1 c2 : Nat) (hs : s < 2 ^ 32) (h1 : c1 < 256)
    (h2 : c2 < 256) (h : CalculateCharacterCRC32 s c1 = CalculateCharacterCRC32 s c2) :
    c1 = c2 := by
  rw [CalculateCharacterCRC32_eq_bitwise s c1 hs h1,
    CalculateCharacterCRC32_eq_bitwise s c2 hs h2] at h
  exact Nat.xor_right_inj.mp (crcBitStep_iterate_injOn 8 _ _
    (Nat.xor_lt_two_pow hs (byte_lt_two_pow_32 c1 h1))
    (Nat.xor_lt_two_pow hs (byte_lt_two_pow_32 c2 h2)) h)

theorem CalculateCharacterCRC32_surj_state (c t : Nat) (hc : c < 256) (ht : t < 2 ^ 32) :
    ∃ s, s < 2 ^ 32 ∧ CalculateCharacterCRC32 s c = t := by
  let g : Fin (2 ^ 32) → Fin (2 ^ 32) :=
    fun s => ⟨CalculateCharacterCRC32 s.val c, CalculateCharacterCRC32_lt s.val c⟩
  have hinj : Function.Injective g := by
    intro u v huv
    have hval : CalculateCharacterCRC32 u.val c = CalculateCharacterCRC32 v.val c :=
      congrArg Fin.val huv
    exact Fin.ext (CalculateCharacterCRC32_inj_state u.val v.val c u.isLt v.isLt hc hval)
  obtain ⟨s, hs⟩ := (Finite.injective_iff_surjective.mp hinj) ⟨t, ht⟩
  exact ⟨s.val, s.isLt, congrArg Fin.val hs⟩

theorem foldl_CalculateCharacterCRC32_inj (q : List Nat) (t1 t2 : Nat) (h1 : t1 < 2 ^ 32)
    (h2 : t2 < 2 ^ 32) (hq : ∀ c ∈ q, c < 256) (hne : t1 ≠ t2) :
    q.foldl CalculateCharacterCRC32 t1 ≠ q.foldl CalculateCharacterCRC32 t2 := by
  induction q generalizing t1 t2 with
  | nil => exact hne
  | cons c rest ih =>
    have hc : c < 256 := hq c (List.mem_cons_self c rest)
    exact ih _ _ (CalculateCharacterCRC32_lt t1 c) (CalculateCharacterCRC32_lt t2 c)
      (fun d hd => hq d (List.mem_cons_of_mem c hd))
      (fun he => hne (CalculateCharacterCRC32_inj_state t1 t2 c h1 h2 hc he))

theorem split_at_differing_position (a b : List Nat) (i : Nat) (hlen : a.length = b.length)
    (hi : i < a.length) (hdiff : a[i]? ≠ b[i]?) (hsame : ∀ j, j ≠ i → a[j]? = b[j]?) :
    ∃ p x y q, a = p ++ x :: q ∧ b = p ++ y :: q ∧ x ≠ y := by
  have hib : i < b.length := hlen ▸ hi
  refine ⟨a.take i, a[i], b[i], a.drop (i + 1), ?_, ?_, ?_⟩
  · rw [← List.drop_eq_getElem_cons hi, List.take_append_drop]
  · have htake : a.take i = b.take i := by
      apply List.ext_getElem?
      intro n
      rw [List.getElem?_take, List.getElem?_take]
      split
      · rename_i hn
        exact hsame n (Nat.ne_of_lt hn)
      · rfl
    have hdrop : a.drop (i + 1) = b.drop (i + 1) := by
      apply List.ext_getElem?
      intro n
      rw [List.getElem?_drop, List.getElem?_drop]
      exact hsame _ (by omega)
    rw [htake, hdrop, ← List.drop_eq_getElem_cons hib, List.take_append_drop]
  · intro he
    apply hdiff
    rw [List.getElem?_eq_getElem hi, List.getElem?_eq_getElem hib, he]

/-- C21: single-byte error detection. For every 32-bit start state and any two sequences of
bytes of the same length that differ in exactly one position `i`, both calls of
`CalculateBlockCRC32` return, and with different values. For a fixed byte
`CalculateCharacterCRC32` is a bijection on 32-bit states (injective, onto, and into), and for
a fixed 32-bit state it is injective in the byte. -/
theorem CalculateBlockCRC32_single_byte_error (s : Nat) (a b : List Nat) (i : Nat)
    (hs : s < 2 ^ 32) (ha : ∀ c ∈ a, c < 256) (hb : ∀ c ∈ b, c < 256)
    (hlen : a.length = b.length) (hi : i < a.length) (hdiff : a[i]? ≠ b[i]?)
    (hsame : ∀ j, j ≠ i → a[j]? = b[j]?) :
    (∃ u v, CalculateBlockCRC32 a.length s a = some u
      ∧ CalculateBlockCRC32 b.length s b = some v ∧ u ≠ v)
    ∧ (∀ c, c < 256 →
        (∀ s1 s2, s1 < 2 ^ 32 → s2 < 2 ^ 32 →
          CalculateCharacterCRC32 s1 c = CalculateCharacterCRC32 s2 c → s1 = s2)
        ∧ (∀ t, t < 2 ^ 32 → ∃ s1, s1 < 2 ^ 32 ∧ CalculateCharacterCRC32 s1 c = t)
        ∧ (∀ s1, s1 < 2 ^ 32 → CalculateCharacterCRC32 s1 c < 2 ^ 32))
    ∧ (∀ t c1 c2, t < 2 ^ 32 → c1 < 256 → c2 < 256 →
        CalculateCharacterCRC32 t c1 = CalculateCharacterCRC32 t c2 → c1 = c2) := by
  refine ⟨⟨a.foldl CalculateCharacterCRC32 s, b.foldl CalculateCharacterCRC32 s,
    CalculateBlockCRC32_eq_foldl s a, CalculateBlockCRC32_eq_foldl s b, ?_⟩,
    fun c hc => ⟨fun s1 s2 h1 h2 h => CalculateCharacterCRC32_inj_state s1 s2 c h1 h2 hc h,
      fun t ht => CalculateCharacterCRC32_surj_state c t hc ht,
      fun s1 _ => CalculateCharacterCRC32_lt s1 c⟩,
    fun t c1 c2 ht h1 h2 h => CalculateCharacterCRC32_inj_byte t c1 c2 ht h1 h2 h⟩
  obtain ⟨p, x, y, q, rfl, rfl, hxy⟩ := split_at_differing_position a b i hlen hi hdiff hsame
  have hx : x < 256 := ha x (by simp)
  have hy : y < 256 := hb y (by simp)
  have hq : ∀ c ∈ q, c < 256 := fun c hc => ha c (by simp [hc])
  have ht := foldl_CalculateCharacterCRC32_lt s p hs
  rw [List.foldl_append, List.foldl_append, List.foldl_cons, List.foldl_cons]
  exact foldl_CalculateCharacterCRC32_inj q _ _ (CalculateCharacterCRC32_lt _ x)
    (CalculateCharacterCRC32_lt _ y) hq
    (fun he => hxy (CalculateCharacterCRC32_inj_byte _ x y ht hx hy he))

theorem CalculateBlockCRC32_single_byte_error_witness :
    ((0 : Nat) < 2 ^ 32 ∧ (∀ c ∈ ([0x31, 0x32, 0x33] : List Nat), c < 256)
      ∧ (∀ c ∈ ([0x31, 0x34, 0x33] : List Nat), c < 256)
      ∧ ([0x31, 0x32, 0x33] : List Nat).length = ([0x31, 0x34, 0x33] : List Nat).length
      ∧ 1 < ([0x31, 0x32, 0x33] : List Nat).length
      ∧ ([0x31, 0x32, 0x33] : List Nat)[1]? ≠ ([0x31, 0x34, 0x33] : List Nat)[1]?)
    ∧ ∃ u v, CalculateBlockCRC32 ([0x31, 0x32, 0x33] : List Nat).length 0 [0x31, 0x32, 0x33]
        = some u
      ∧ CalculateBlockCRC32 ([0x31, 0x34, 0x33] : List Nat).length 0 [0x31, 0x34, 0x33]
        = some v
      ∧ u ≠ v :=
  ⟨⟨by decide, by decide, by decide, rfl, by decide, by decide⟩,
    (CalculateBlockCRC32_single_byte_error 0 [0x31, 0x32, 0x33] [0x31, 0x34, 0x33] 1
      (by decide) (by decide) (by decide) rfl (by decide) (by decide)
      (fun j hj => by
        match j, hj with
        | 0, _ => rfl
        | 1, h => exact absurd rfl h
        | 2, _ => rfl
        | _ + 3, _ => rfl)).1⟩

theorem CalculateCharacterCRC32_xor (s1 s2 x y : Nat) (h1 : s1 < 2 ^ 32) (h2 : s2 < 2 ^ 32)
    (hx : x < 256) (hy : y < 256) :
    CalculateCharacterCRC32 (s1 ^^^ s2) (x ^^^ y)
      = CalculateCharacterCRC32 s1 x ^^^ CalculateCharacterCRC32 s2 y := by
  have hxy : x ^^^ y < 256 := by
    have h := @Nat.xor_lt_two_pow x y 8 (by simpa using hx) (by simpa using hy)
    simpa using h
  rw [CalculateCharacterCRC32_eq_bitwise _ _ (Nat.xor_lt_two_pow h1 h2) hxy,
    CalculateCharacterCRC32_eq_bitwise s1 x h1 hx, CalculateCharacterCRC32_eq_bitwise s2 y h2 hy]
  unfold crcBitwiseByte
  rw [← crcBitStep_iterate_xor]
  congr 1
  apply Nat.eq_of_testBit_eq
  intro i
  simp only [Nat.testBit_xor]
  cases s1.testBit i <;> cases s2.testBit i <;> cases x.testBit i <;> cases y.testBit i <;> rfl

theorem foldl_CalculateCharacterCRC32_xor (a b : List Nat) (s1 s2 : Nat) (h1 : s1 < 2 ^ 32)
    (h2 : s2 < 2 ^ 32) (ha : ∀ c ∈ a, c < 256) (hb : ∀ c ∈ b, c < 256)
    (hlen : a.length = b.length) :
    (List.zipWith (fun x y => x ^^^ y) a b).foldl CalculateCharacterCRC32 (s1 ^^^ s2)
      = a.foldl CalculateCharacterCRC32 s1 ^^^ b.foldl CalculateCharacterCRC32 s2 := by
  induction a generalizing b s1 s2 with
  | nil =>
    cases b with
    | nil => rfl
    | cons y rest => simp at hlen
  | cons x as ih =>
    cases b with
    | nil => simp at hlen
    | cons y bs =>
      have hx : x < 256 := ha x (List.mem_cons_self x as)
      have hy : y < 256 := hb y (List.mem_cons_self y bs)
      simp only [List.zipWith_cons_cons, List.foldl_cons]
      rw [CalculateCharacterCRC32_xor s1 s2 x y h1 h2 hx hy]
      exact ih bs _ _ (CalculateCharacterCRC32_lt s1 x) (CalculateCharacterCRC32_lt s2 y)
        (fun c hc => ha c (List.mem_cons_of_mem x hc))
        (fun c hc => hb c (List.mem_cons_of_mem y hc))
        (by simpa using hlen)

/-- C22: the CRC is linear over XOR. For all 32-bit states `s1`, `s2` and all byte sequences
`a`, `b` of equal length `n`, `CalculateBlockCRC32(n, s1 xor s2, a xor b)` is
`CalculateBlockCRC32(n, s1, a) xor CalculateBlockCRC32(n, s2, b)`, where `a xor b` is the
bytewise XOR; all three calls return. -/
theorem CalculateBlockCRC32_xor_linear (s1 s2 : Nat) (a b : List Nat) (h1 : s1 < 2 ^ 32)
    (h2 : s2 < 2 ^ 32) (ha : ∀ c ∈ a, c < 256) (hb : ∀ c ∈ b, c < 256)
    (hlen : a.length = b.length) :
    ∃ u v, CalculateBlockCRC32 a.length s1 a = some u
      ∧ CalculateBlockCRC32 a.length s2 b = some v
      ∧ CalculateBlockCRC32 a.length (s1 ^^^ s2) (List.zipWith (fun x y => x ^^^ y) a b)
        = some (u ^^^ v) := by
  refine ⟨a.foldl CalculateCharacterCRC32 s1, b.foldl CalculateCharacterCRC32 s2,
    CalculateBlockCRC32_eq_foldl s1 a, ?_, ?_⟩
  · rw [hlen]
    exact CalculateBlockCRC32_eq_foldl s2 b
  · have hz : (List.zipWith (fun x y => x ^^^ y) a b).length = a.length := by
      simp [List.length_zipWith, hlen]
    rw [← hz, CalculateBlockCRC32_eq_foldl,
      foldl_CalculateCharacterCRC32_xor a b s1 s2 h1 h2 ha hb hlen]

theorem CalculateBlockCRC32_xor_linear_witness :
    ((0x12345678 : Nat) < 2 ^ 32 ∧ (0xFFFFFFFF : Nat) < 2 ^ 32
      ∧ (∀ c ∈ ([0x31, 0x32, 0x33] : List Nat), c < 256)
      ∧ (∀ c ∈ ([0xFF, 0x00, 0x80] : List Nat), c < 256)
      ∧ ([0x31, 0x32, 0x33] : List Nat).length = ([0xFF, 0x00, 0x80] : List Nat).length)
    ∧ ∃ u v, CalculateBlockCRC32 ([0x31, 0x32, 0x33] : List Nat).length 0x12345678
        [0x31, 0x32, 0x33] = some u
      ∧ CalculateBlockCRC32 ([0x31, 0x32, 0x33] : List Nat).length 0xFFFFFFFF
        [0xFF, 0x00, 0x80] = some v
      ∧ CalculateBlockCRC32 ([0x31, 0x32, 0x33] : List Nat).length (0x12345678 ^^^ 0xFFFFFFFF)
        (List.zipWith (fun x y => x ^^^ y) [0x31, 0x32, 0x33] [0xFF, 0x00, 0x80])
        = some (u ^^^ v) :=
  ⟨⟨by decide, by decide, by decide, by decide, rfl⟩,
    CalculateBlockCRC32_xor_linear 0x12345678 0xFFFFFFFF [0x31, 0x32, 0x33] [0xFF, 0x00, 0x80]
      (by decide) (by decide) (by decide) (by decide) rfl⟩

theorem shiftRight_eight_mask (s : Nat) (hs : s < 2 ^ 32) :
    (s >>> 8) &&& 0x00FFFFFF = s >>> 8 := by
  have h := Nat.and_pow_two_sub_one_eq_mod (s >>> 8) 24
  norm_num at h
  rw [h]
  apply Nat.mod_eq_of_lt
  rw [Nat.shiftRight_eq_div_pow]
  omega

/-- C24: for every 32-bit state and every byte, the table index computed by
`CalculateCharacterCRC32` (signed cast of the state, xor the byte, masked with `0xff`, with the
mask as `landInt` or as `Int.land`) lies in 0..255 and equals `(state xor byte) mod 256`, so the
lookup in the 256-entry table is within bounds; masking the shifted state with `0x00FFFFFF` does
not change it, so the result is `(state >> 8) xor uiCRCTable[index]`. -/
theorem CalculateCharacterCRC32_index (s c : Nat) (hs : s < 2 ^ 32) :
    (landInt (Int.xor (toInt32 s) (Int.ofNat c)) 0xff).toNat % 2 ^ 32 < 256
    ∧ (landInt (Int.xor (toInt32 s) (Int.ofNat c)) 0xff).toNat % 2 ^ 32 = (s ^^^ c) % 256
    ∧ (Int.land (Int.xor (toInt32 s) (Int.ofNat c)) 0xff).toNat % 2 ^ 32 = (s ^^^ c) % 256
    ∧ (landInt (Int.xor (toInt32 s) (Int.ofNat c)) 0xff).toNat % 2 ^ 32 < uiCRCTable.length
    ∧ (s >>> 8) &&& 0x00FFFFFF = s >>> 8
    ∧ CalculateCharacterCRC32 s c
      = (s >>> 8) ^^^ uiCRCTable.getD
          ((landInt (Int.xor (toInt32 s) (Int.ofNat c)) 0xff).toNat % 2 ^ 32) 0 := by
  have hidx := crcIndex_eq s c hs
  have h256 : (s ^^^ c) % 256 < 256 := Nat.mod_lt _ (by norm_num)
  have hlenT : uiCRCTable.length = 256 := by simp [uiCRCTable]
  refine ⟨hidx ▸ h256, hidx, ?_, ?_, shiftRight_eight_mask s hs, ?_⟩
  · rw [← landInt_eq_land]
    exact hidx
  · rw [hidx, hlenT]
    exact h256
  · have hres : CalculateCharacterCRC32 s c
        = (((s >>> 8) &&& 0x00FFFFFF) ^^^ uiCRCTable.getD
            ((landInt (Int.xor (toInt32 s) (Int.ofNat c)) 0xff).toNat % 2 ^ 32) 0) % 2 ^ 32 := rfl
    rw [hres, shiftRight_eight_mask s hs]
    apply Nat.mod_eq_of_lt
    apply Nat.xor_lt_two_pow
    · rw [Nat.shiftRight_eq_div_pow]
      exact lt_of_le_of_lt (Nat.div_le_self _ _) hs
    · rw [hidx, uiCRCTable_getD _ h256]
      exact crcBitStep_iterate_lt 8 _ (lt_trans h256 (by norm_num))

theorem CalculateCharacterCRC32_index_witness :
    (0xFFFFFFFF : Nat) < 2 ^ 32
    ∧ (landInt (Int.xor (toInt32 0xFFFFFFFF) (Int.ofNat 0x31)) 0xff).toNat % 2 ^ 32
      = (0xFFFFFFFF ^^^ 0x31) % 256 :=
  ⟨by decide, (CalculateCharacterCRC32_index 0xFFFFFFFF 0x31 (by decide)).2.1⟩

theorem foldl_CalculateCharacterCRC32_zeros (n : Nat) :
    (List.replicate n 0).foldl CalculateCharacterCRC32 0 = 0 := by
  induction n with
  | zero => rfl
  | succ n ih =>
    rw [List.replicate_succ, List.foldl_cons]
    have h0 : CalculateCharacterCRC32 0 0 = 0 := by decide
    rw [h0]
    exact ih

/-- C26: from initial state 0, any run of zero bytes leaves the CRC state at 0: for every `n`,
`CalculateBlockCRC32` over `n` zero bytes from state 0 returns 0; hence for every byte sequence
`m`, the CRC from state 0 of `n` zero bytes followed by `m` equals the CRC from state 0 of `m`
alone, which is a returned value. -/
theorem CalculateBlockCRC32_leading_zeros (n : Nat) (m : List Nat) :
    CalculateBlockCRC32 n 0 (List.replicate n 0) = some 0
    ∧ CalculateBlockCRC32 (n + m.length) 0 (List.replicate n 0 ++ m)
      = CalculateBlockCRC32 m.length 0 m
    ∧ ∃ crc, CalculateBlockCRC32 m.length 0 m = some crc := by
  refine ⟨?_, ?_, ⟨_, CalculateBlockCRC32_eq_foldl 0 m⟩⟩
  · have h := CalculateBlockCRC32_eq_foldl 0 (List.replicate n 0)
    rw [List.length_replicate, foldl_CalculateCharacterCRC32_zeros] at h
    exact h
  · have h := CalculateBlockCRC32_eq_foldl 0 (List.replicate n 0 ++ m)
    rw [List.length_append, List.length_replicate, List.foldl_append,
      foldl_CalculateCharacterCRC32_zeros] at h
    rw [h, CalculateBlockCRC32_eq_foldl]

/-! ## Theorems: message filter -/

namespace oem

theorem DoFilteringLoop_eq_true_iff (f : Filter) (md : MetaDataStruct)
    (fns : List FilterFunction) :
    f.DoFilteringLoop md fns = some true ↔ ∀ fn ∈ fns, f.call fn md = some true := by
  induction fns with
  | nil => simp [Filter.DoFilteringLoop]
  | cons fn rest ih =>
    simp only [Filter.DoFilteringLoop, List.mem_cons, forall_eq_or_imp]
    cases hcall : f.call fn md with
    | none => simp
    | some b =>
      cases b with
      | false => simp
      | true => simpa using ih

/-- C3: for every filter state and every metadata whose format is neither UNKNOWN nor NMEA,
`DoFiltering` returns true if and only if every predicate in the registered list
`vMyFilterFunctions` returns true on that metadata; with no predicate registered it returns
true. -/
theorem DoFiltering_eq_true_iff_all (f : Filter) (md : MetaDataStruct)
    (hU : md.eFormat ≠ HEADERFORMAT.UNKNOWN) (hN : md.eFormat ≠ HEADERFORMAT.NMEA) :
    (f.DoFiltering md = some true ↔ ∀ fn ∈ f.vMyFilterFunctions, f.call fn md = some true)
    ∧ Filter.DoFiltering { f with vMyFilterFunctions := [] } md = some true := by
  constructor
  · unfold Filter.DoFiltering
    rw [if_neg hU, if_neg hN]
    exact DoFilteringLoop_eq_true_iff f md f.vMyFilterFunctions
  · unfold Filter.DoFiltering
    rw [if_neg hU, if_neg hN]
    rfl

theorem DoFiltering_eq_true_iff_all_witness :
    ((MetaDataStruct.mk HEADERFORMAT.BINARY MEASUREMENT_SOURCE.PRIMARY 0 2200 150000 42 "BESTPOS").eFormat
        ≠ HEADERFORMAT.UNKNOWN
      ∧ (MetaDataStruct.mk HEADERFORMAT.BINARY MEASUREMENT_SOURCE.PRIMARY 0 2200 150000 42 "BESTPOS").eFormat
        ≠ HEADERFORMAT.NMEA)
    ∧ (((Filter.configured [ConfigCall.SetIncludeLowerTimeBound 2200 100000]).DoFiltering
          (MetaDataStruct.mk HEADERFORMAT.BINARY MEASUREMENT_SOURCE.PRIMARY 0 2200 150000 42 "BESTPOS")
          = some true
        ↔ ∀ fn ∈ (Filter.configured [ConfigCall.SetIncludeLowerTimeBound 2200 100000]).vMyFilterFunctions,
          (Filter.configured [ConfigCall.SetIncludeLowerTimeBound 2200 100000]).call fn
            (MetaDataStruct.mk HEADERFORMAT.BINARY MEASUREMENT_SOURCE.PRIMARY 0 2200 150000 42 "BESTPOS")
            = some true)
      ∧ Filter.DoFiltering
          { (Filter.configured [ConfigCall.SetIncludeLowerTimeBound 2200 100000]) with
            vMyFilterFunctions := [] }
          (MetaDataStruct.mk HEADERFORMAT.BINARY MEASUREMENT_SOURCE.PRIMARY 0 2200 150000 42 "BESTPOS")
          = some true) :=
  ⟨⟨by decide, by decide⟩,
    DoFiltering_eq_true_iff_all (Filter.configured [ConfigCall.SetIncludeLowerTimeBound 2200 100000])
      (MetaDataStruct.mk HEADERFORMAT.BINARY MEASUREMENT_SOURCE.PRIMARY 0 2200 150000 42 "BESTPOS")
      (by decide) (by decide)⟩

/-- C4: for every filter state, whatever is configured, `DoFiltering` returns false for every
metadata whose format is UNKNOWN. -/
theorem DoFiltering_unknown (f : Filter) (md : MetaDataStruct)
    (h : md.eFormat = HEADERFORMAT.UNKNOWN) : f.DoFiltering md = some false := by
  unfold Filter.DoFiltering
  rw [if_pos h]

theorem DoFiltering_unknown_witness :
    (MetaDataStruct.mk HEADERFORMAT.UNKNOWN MEASUREMENT_SOURCE.PRIMARY 0 2200 150000 42 "BESTPOS").eFormat
      = HEADERFORMAT.UNKNOWN
    ∧ (Filter.configured [ConfigCall.SetIncludeLowerTimeBound 2200 100000]).DoFiltering
        (MetaDataStruct.mk HEADERFORMAT.UNKNOWN MEASUREMENT_SOURCE.PRIMARY 0 2200 150000 42 "BESTPOS")
      = some false :=
  ⟨rfl, DoFiltering_unknown (Filter.configured [ConfigCall.SetIncludeLowerTimeBound 2200 100000])
    (MetaDataStruct.mk HEADERFORMAT.UNKNOWN MEASUREMENT_SOURCE.PRIMARY 0 2200 150000 42 "BESTPOS") rfl⟩

theorem configured_append (calls : List ConfigCall) (c : ConfigCall) :
    Filter.configured (calls ++ [c]) = (Filter.configured calls).configure c := by
  simp [Filter.configured, List.foldl_append]

theorem PushUnique_bMyIncludeNMEA_ (f : Filter) (fn : FilterFunction) :
    (f.PushUnique fn).bMyIncludeNMEA_ = f.bMyIncludeNMEA_ := by
  unfold Filter.PushUnique
  split <;> rfl

theorem configured_bMyIncludeNMEA_ (calls : List ConfigCall) :
    (Filter.configured calls).bMyIncludeNMEA_ = lastNMEASetting calls := by
  induction calls using List.reverseRecOn with
  | nil => rfl
  | append_singleton calls c ih =>
    rw [configured_append]
    unfold lastNMEASetting at ih ⊢
    rw [List.reverse_append, List.reverse_singleton, List.singleton_append]
    cases c <;>
      simp only [Filter.configure, Filter.SetIncludeLowerTimeBound,
        Filter.SetIncludeUpperTimeBound, Filter.InvertTimeFilter, Filter.SetIncludeDecimation,
        Filter.InvertDecimationFilter, Filter.IncludeTimeStatus, Filter.IncludeTimeStatuses,
        Filter.InvertTimeStatusFilter, Filter.IncludeMessageId, Filter.IncludeMessageIds,
        Filter.InvertMessageIdFilter, Filter.IncludeMessageName, Filter.IncludeMessageNames,
        Filter.InvertMessageNameFilter, Filter.IncludeNMEAMessages, Filter.ClearFilters,
        PushUnique_bMyIncludeNMEA_, List.find?_cons] <;>
      exact ih

/-- C5: for every filter state and every NMEA-format metadata, `DoFiltering` returns exactly
the NMEA opt-in flag `bMyIncludeNMEA_`: false on a newly constructed filter and after
`ClearFilters`, the argument after `IncludeNMEAMessages`, and after any sequence of configuration
calls the value last passed to `IncludeNMEAMessages` since the last `ClearFilters` (false when
there is none). -/
theorem DoFiltering_nmea (f : Filter) (calls : List ConfigCall) (b : Bool) (md : MetaDataStruct)
    (h : md.eFormat = HEADERFORMAT.NMEA) :
    f.DoFiltering md = some f.bMyIncludeNMEA_
    ∧ Filter.ctor.DoFiltering md = some false
    ∧ f.ClearFilters.DoFiltering md = some false
    ∧ (f.IncludeNMEAMessages b).DoFiltering md = some b
    ∧ (Filter.configured calls).DoFiltering md = some (lastNMEASetting calls) := by
  have key : ∀ g : Filter, g.DoFiltering md = some g.bMyIncludeNMEA_ := by
    intro g
    unfold Filter.DoFiltering
    rw [if_neg (by rw [h]; decide), if_pos h]
  refine ⟨key f, key _, key _, key _, ?_⟩
  rw [key, configured_bMyIncludeNMEA_]

theorem DoFiltering_nmea_witness :
    (MetaDataStruct.mk HEADERFORMAT.NMEA MEASUREMENT_SOURCE.PRIMARY 0 0 0 0 "GPGGA").eFormat
      = HEADERFORMAT.NMEA
    ∧ ((Filter.configured [ConfigCall.SetIncludeLowerTimeBound 2200 100000]).DoFiltering
          (MetaDataStruct.mk HEADERFORMAT.NMEA MEASUREMENT_SOURCE.PRIMARY 0 0 0 0 "GPGGA")
        = some (Filter.configured [ConfigCall.SetIncludeLowerTimeBound 2200 100000]).bMyIncludeNMEA_
      ∧ Filter.ctor.DoFiltering
          (MetaDataStruct.mk HEADERFORMAT.NMEA MEASUREMENT_SOURCE.PRIMARY 0 0 0 0 "GPGGA")
        = some false
      ∧ (Filter.ClearFilters (Filter.configured [ConfigCall.SetIncludeLowerTimeBound 2200 100000])).DoFiltering
          (MetaDataStruct.mk HEADERFORMAT.NMEA MEASUREMENT_SOURCE.PRIMARY 0 0 0 0 "GPGGA")
        = some false
      ∧ (Filter.IncludeNMEAMessages (Filter.configured [ConfigCall.SetIncludeLowerTimeBound 2200 100000]) true).DoFiltering
          (MetaDataStruct.mk HEADERFORMAT.NMEA MEASUREMENT_SOURCE.PRIMARY 0 0 0 0 "GPGGA")
        = some true
      ∧ (Filter.configured [ConfigCall.IncludeNMEAMessages true, ConfigCall.InvertTimeFilter true]).DoFiltering
          (MetaDataStruct.mk HEADERFORMAT.NMEA MEASUREMENT_SOURCE.PRIMARY 0 0 0 0 "GPGGA")
        = some (lastNMEASetting [ConfigCall.IncludeNMEAMessages true, ConfigCall.InvertTimeFilter true])) :=
  ⟨rfl, DoFiltering_nmea (Filter.configured [ConfigCall.SetIncludeLowerTimeBound 2200 100000])
    [ConfigCall.IncludeNMEAMessages true, ConfigCall.InvertTimeFilter true] true
    (MetaDataStruct.mk HEADERFORMAT.NMEA MEASUREMENT_SOURCE.PRIMARY 0 0 0 0 "GPGGA") rfl⟩

/-- C6, amended: for every filter state with NMEA opt-in enabled and every NMEA-format
metadata, `DoFiltering` admits the message, whatever the configured predicates return on it (they
are not evaluated for an NMEA message). -/
theorem DoFiltering_nmea_opted_in (f : Filter) (md : MetaDataStruct)
    (hf : f.bMyIncludeNMEA_ = true) (h : md.eFormat = HEADERFORMAT.NMEA) :
    f.DoFiltering md = some true := by
  unfold Filter.DoFiltering
  rw [if_neg (by rw [h]; decide), if_pos h, hf]

theorem DoFiltering_nmea_opted_in_witness :
    ((Filter.configured [ConfigCall.IncludeNMEAMessages true,
        ConfigCall.SetIncludeLowerTimeBound 2200 100000]).bMyIncludeNMEA_ = true
      ∧ (MetaDataStruct.mk HEADERFORMAT.NMEA MEASUREMENT_SOURCE.PRIMARY 0 0 0 0 "GPGGA").eFormat
        = HEADERFORMAT.NMEA)
    ∧ (Filter.configured [ConfigCall.IncludeNMEAMessages true,
        ConfigCall.SetIncludeLowerTimeBound 2200 100000]).DoFiltering
        (MetaDataStruct.mk HEADERFORMAT.NMEA MEASUREMENT_SOURCE.PRIMARY 0 0 0 0 "GPGGA")
      = some true :=
  ⟨⟨by decide, rfl⟩,
    DoFiltering_nmea_opted_in
      (Filter.configured [ConfigCall.IncludeNMEAMessages true,
        ConfigCall.SetIncludeLowerTimeBound 2200 100000])
      (MetaDataStruct.mk HEADERFORMAT.NMEA MEASUREMENT_SOURCE.PRIMARY 0 0 0 0 "GPGGA")
      (by decide) rfl⟩

/-- C6, as stated, fails: with NMEA opt-in enabled and a lower time bound of week 2200,
100000 ms, an NMEA message at week 0, 0 ms is admitted although the registered predicate
`FilterTime` returns false on it. -/
theorem DoFiltering_nmea_ignores_predicates :
    (Filter.configured [ConfigCall.IncludeNMEAMessages true,
        ConfigCall.SetIncludeLowerTimeBound 2200 100000]).bMyIncludeNMEA_ = true
    ∧ (Filter.configured [ConfigCall.IncludeNMEAMessages true,
        ConfigCall.SetIncludeLowerTimeBound 2200 100000]).vMyFilterFunctions
      = [FilterFunction.FilterTime]
    ∧ (Filter.configured [ConfigCall.IncludeNMEAMessages true,
        ConfigCall.SetIncludeLowerTimeBound 2200 100000]).call FilterFunction.FilterTime
        ⟨HEADERFORMAT.NMEA, MEASUREMENT_SOURCE.PRIMARY, 0, 0, 0, 0, "GPGGA"⟩ = some false
    ∧ (Filter.configured [ConfigCall.IncludeNMEAMessages true,
        ConfigCall.SetIncludeLowerTimeBound 2200 100000]).DoFiltering
        ⟨HEADERFORMAT.NMEA, MEASUREMENT_SOURCE.PRIMARY, 0, 0, 0, 0, "GPGGA"⟩ = some true
    ∧ ¬ ((Filter.configured [ConfigCall.IncludeNMEAMessages true,
          ConfigCall.SetIncludeLowerTimeBound 2200 100000]).DoFiltering
          ⟨HEADERFORMAT.NMEA, MEASUREMENT_SOURCE.PRIMARY, 0, 0, 0, 0, "GPGGA"⟩ = some true
        ↔ ∀ fn ∈ (Filter.configured [ConfigCall.IncludeNMEAMessages true,
            ConfigCall.SetIncludeLowerTimeBound 2200 100000]).vMyFilterFunctions,
          (Filter.configured [ConfigCall.IncludeNMEAMessages true,
            ConfigCall.SetIncludeLowerTimeBound 2200 100000]).call fn
            ⟨HEADERFORMAT.NMEA, MEASUREMENT_SOURCE.PRIMARY, 0, 0, 0, 0, "GPGGA"⟩ = some true) := by
  decide

theorem PushUnique_nodup (f : Filter) (fn : FilterFunction)
    (h : f.vMyFilterFunctions.Nodup) : (f.PushUnique fn).vMyFilterFunctions.Nodup := by
  unfold Filter.PushUnique
  split
  · rename_i hnot
    show (f.vMyFilterFunctions ++ [fn]).Nodup
    rw [List.nodup_append]
    refine ⟨h, List.nodup_singleton fn, ?_⟩
    intro a ha hb
    rw [List.mem_singleton] at hb
    exact hnot (hb ▸ ha)
  · exact h

theorem configure_nodup (f : Filter) (c : ConfigCall) (h : f.vMyFilterFunctions.Nodup) :
    (f.configure c).vMyFilterFunctions.Nodup := by
  cases c <;>
    first
      | exact PushUnique_nodup _ _ h
      | exact h
      | exact List.nodup_nil

theorem configured_nodup (calls : List ConfigCall) :
    (Filter.configured calls).vMyFilterFunctions.Nodup := by
  induction calls using List.reverseRecOn with
  | nil => exact List.nodup_nil
  | append_singleton calls c ih =>
    rw [configured_append]
    exact configure_nodup _ c ih

/-- C7: in every filter state reached from construction by any sequence of configuration
calls, the registered-predicate list `vMyFilterFunctions` holds no predicate twice, hence has at
most five entries. -/
theorem configured_filter_functions_unique (calls : List ConfigCall) :
    (Filter.configured calls).vMyFilterFunctions.Nodup
    ∧ (Filter.configured calls).vMyFilterFunctions.length ≤ 5 := by
  refine ⟨configured_nodup calls, ?_⟩
  have h := List.Nodup.length_le_card (configured_nodup calls)
  have hcard : Fintype.card FilterFunction = 5 := rfl
  rwa [hcard] at h

theorem lex_le_iff (a b c d : Nat) :
    toLex (a, b) ≤ toLex (c, d) ↔ a < c ∨ (a = c ∧ b ≤ d) := by
  rw [Prod.Lex.le_iff]

theorem lex_lt_iff (a b c d : Nat) :
    toLex (a, b) < toLex (c, d) ↔ a < c ∨ (a = c ∧ b < d) := by
  rw [Prod.Lex.lt_iff]

/-- C8, amended: with the time filter not inverted, `FilterTime` admits a message at
`(week, ms)` if and only if (no lower bound is configured or `(lowerWeek, lowerMs) ≤ (week, ms)`
lexicographically) and (no upper bound is configured or `(week, ms) ≤ (upperWeek, upperMs)`
lexicographically). A message exactly on the lower bound is admitted if and only if no upper
bound is configured or the lower bound is not after the upper bound, and a message exactly on
the upper bound is admitted if and only if no lower bound is configured or the lower bound is
not after the upper bound. -/
theorem FilterTime_not_inverted (f : Filter) (md : MetaDataStruct)
    (h : f.bMyInvertTimeFilter = false) :
    (f.FilterTime md = true ↔
      (f.bMyFilterLowerTime = false
        ∨ toLex (f.uiMyLowerWeek, f.uiMyLowerMSec) ≤ toLex (md.usWeek, md.dMilliseconds))
      ∧ (f.bMyFilterUpperTime = false
        ∨ toLex (md.usWeek, md.dMilliseconds) ≤ toLex (f.uiMyUpperWeek, f.uiMyUpperMSec)))
    ∧ (f.FilterTime { md with usWeek := f.uiMyLowerWeek, dMilliseconds := f.uiMyLowerMSec } = true ↔
      (f.bMyFilterUpperTime = false
        ∨ toLex (f.uiMyLowerWeek, f.uiMyLowerMSec) ≤ toLex (f.uiMyUpperWeek, f.uiMyUpperMSec)))
    ∧ (f.FilterTime { md with usWeek := f.uiMyUpperWeek, dMilliseconds := f.uiMyUpperMSec } = true ↔
      (f.bMyFilterLowerTime = false
        ∨ toLex (f.uiMyLowerWeek, f.uiMyLowerMSec) ≤ toLex (f.uiMyUpperWeek, f.uiMyUpperMSec))) := by
  have main : ∀ m : MetaDataStruct, (f.FilterTime m = true ↔
      (f.bMyFilterLowerTime = false
        ∨ toLex (f.uiMyLowerWeek, f.uiMyLowerMSec) ≤ toLex (m.usWeek, m.dMilliseconds))
      ∧ (f.bMyFilterUpperTime = false
        ∨ toLex (m.usWeek, m.dMilliseconds) ≤ toLex (f.uiMyUpperWeek, f.uiMyUpperMSec))) := by
    intro m
    simp only [Filter.FilterTime, h, lex_le_iff]
    cases f.bMyFilterLowerTime <;> cases f.bMyFilterUpperTime <;>
      simp <;> omega
  refine ⟨main md, ?_, ?_⟩
  · rw [main]
    simp
  · rw [main]
    simp

theorem FilterTime_not_inverted_witness :
    (Filter.configured [ConfigCall.SetIncludeLowerTimeBound 2200 100000,
        ConfigCall.SetIncludeUpperTimeBound 2200 200000]).bMyInvertTimeFilter = false
    ∧ (Filter.configured [ConfigCall.SetIncludeLowerTimeBound 2200 100000,
        ConfigCall.SetIncludeUpperTimeBound 2200 200000]).FilterTime
        (MetaDataStruct.mk HEADERFORMAT.BINARY MEASUREMENT_SOURCE.PRIMARY 0 2200 150000 42 "BESTPOS") = true :=
  ⟨by decide,
    ((FilterTime_not_inverted
      (Filter.configured [ConfigCall.SetIncludeLowerTimeBound 2200 100000,
        ConfigCall.SetIncludeUpperTimeBound 2200 200000])
      (MetaDataStruct.mk HEADERFORMAT.BINARY MEASUREMENT_SOURCE.PRIMARY 0 2200 150000 42 "BESTPOS")
      (by decide)).1).2 ⟨Or.inr (by decide), Or.inr (by decide)⟩⟩

/-- C8, as stated, fails in its last clause: with the lower bound (2200, 200000) set after the
upper bound (2200, 100000) and the time filter not inverted, the message exactly on the lower
bound and the message exactly on the upper bound are both rejected. -/
theorem FilterTime_on_bound_rejected :
    (Filter.configured [ConfigCall.SetIncludeLowerTimeBound 2200 200000,
        ConfigCall.SetIncludeUpperTimeBound 2200 100000]).bMyInvertTimeFilter = false
    ∧ ((Filter.configured [ConfigCall.SetIncludeLowerTimeBound 2200 200000,
          ConfigCall.SetIncludeUpperTimeBound 2200 100000]).uiMyLowerWeek,
        (Filter.configured [ConfigCall.SetIncludeLowerTimeBound 2200 200000,
          ConfigCall.SetIncludeUpperTimeBound 2200 100000]).uiMyLowerMSec) = (2200, 200000)
    ∧ ((Filter.configured [ConfigCall.SetIncludeLowerTimeBound 2200 200000,
          ConfigCall.SetIncludeUpperTimeBound 2200 100000]).uiMyUpperWeek,
        (Filter.configured [ConfigCall.SetIncludeLowerTimeBound 2200 200000,
          ConfigCall.SetIncludeUpperTimeBound 2200 100000]).uiMyUpperMSec) = (2200, 100000)
    ∧ (Filter.configured [ConfigCall.SetIncludeLowerTimeBound 2200 200000,
        ConfigCall.SetIncludeUpperTimeBound 2200 100000]).FilterTime
        (MetaDataStruct.mk HEADERFORMAT.BINARY MEASUREMENT_SOURCE.PRIMARY 0 2200 200000 42
          "BESTPOS") = false
    ∧ (Filter.configured [ConfigCall.SetIncludeLowerTimeBound 2200 200000,
        ConfigCall.SetIncludeUpperTimeBound 2200 100000]).FilterTime
        (MetaDataStruct.mk HEADERFORMAT.BINARY MEASUREMENT_SOURCE.PRIMARY 0 2200 100000 42
          "BESTPOS") = false := by
  decide

/-- C9: for every filter with at least one time bound configured and every message, the
inverted `FilterTime` admits the message exactly when the non-inverted `FilterTime` with the
same bounds rejects it: with both bounds, exactly the messages outside the window; with only a
lower bound, exactly those strictly before it; with only an upper bound, exactly those strictly
after it. -/
theorem FilterTime_inverted (f : Filter) (md : MetaDataStruct)
    (h : f.bMyFilterLowerTime = true ∨ f.bMyFilterUpperTime = true) :
    (f.InvertTimeFilter true).FilterTime md = !((f.InvertTimeFilter false).FilterTime md)
    ∧ (f.bMyFilterLowerTime = true → f.bMyFilterUpperTime = true →
        ((f.InvertTimeFilter true).FilterTime md = true ↔
          ¬ (toLex (f.uiMyLowerWeek, f.uiMyLowerMSec) ≤ toLex (md.usWeek, md.dMilliseconds)
            ∧ toLex (md.usWeek, md.dMilliseconds) ≤ toLex (f.uiMyUpperWeek, f.uiMyUpperMSec))))
    ∧ (f.bMyFilterLowerTime = true → f.bMyFilterUpperTime = false →
        ((f.InvertTimeFilter true).FilterTime md = true ↔
          toLex (md.usWeek, md.dMilliseconds) < toLex (f.uiMyLowerWeek, f.uiMyLowerMSec)))
    ∧ (f.bMyFilterLowerTime = false → f.bMyFilterUpperTime = true →
        ((f.InvertTimeFilter true).FilterTime md = true ↔
          toLex (f.uiMyUpperWeek, f.uiMyUpperMSec) < toLex (md.usWeek, md.dMilliseconds))) := by
  simp only [Filter.FilterTime, Filter.InvertTimeFilter, lex_le_iff, lex_lt_iff]
  refine ⟨?_, ?_, ?_, ?_⟩
  · rcases h with h | h
    · cases hU : f.bMyFilterUpperTime <;> rw [Bool.eq_iff_iff] <;> simp [h] <;> omega
    · cases hL : f.bMyFilterLowerTime <;> rw [Bool.eq_iff_iff] <;> simp [h] <;> omega
  · intro hL hU
    simp [hL, hU]
    omega
  · intro hL hU
    simp [hL, hU]
    omega
  · intro hL hU
    simp [hL, hU]
    omega

theorem FilterTime_inverted_witness :
    ((Filter.configured [ConfigCall.SetIncludeLowerTimeBound 2200 100000,
        ConfigCall.SetIncludeUpperTimeBound 2200 200000]).bMyFilterLowerTime = true
      ∨ (Filter.configured [ConfigCall.SetIncludeLowerTimeBound 2200 100000,
        ConfigCall.SetIncludeUpperTimeBound 2200 200000]).bMyFilterUpperTime = true)
    ∧ (Filter.InvertTimeFilter
        (Filter.configured [ConfigCall.SetIncludeLowerTimeBound 2200 100000,
        ConfigCall.SetIncludeUpperTimeBound 2200 200000]) true).FilterTime
        (MetaDataStruct.mk HEADERFORMAT.BINARY MEASUREMENT_SOURCE.PRIMARY 0 2200 150000 42 "BESTPOS")
      = !((Filter.InvertTimeFilter
        (Filter.configured [ConfigCall.SetIncludeLowerTimeBound 2200 100000,
        ConfigCall.SetIncludeUpperTimeBound 2200 200000]) false).FilterTime
        (MetaDataStruct.mk HEADERFORMAT.BINARY MEASUREMENT_SOURCE.PRIMARY 0 2200 150000 42 "BESTPOS")) :=
  ⟨Or.inl (by decide),
    (FilterTime_inverted
      (Filter.configured [ConfigCall.SetIncludeLowerTimeBound 2200 100000,
        ConfigCall.SetIncludeUpperTimeBound 2200 200000])
      (MetaDataStruct.mk HEADERFORMAT.BINARY MEASUREMENT_SOURCE.PRIMARY 0 2200 150000 42 "BESTPOS")
      (Or.inl (by decide))).1⟩

/-- C10: on a new filter configured only with the lower time bound (week 2200, 100000 ms) and
the upper time bound (week 2200, 200000 ms), `DoFiltering` rejects a message at (2200, 50000),
admits one at (2200, 150000) and rejects one at (2201, 100000), for messages of any format other
than UNKNOWN and NMEA. -/
theorem DoFiltering_time_window_scenario (md1 md2 md3 : MetaDataStruct)
    (h1U : md1.eFormat ≠ HEADERFORMAT.UNKNOWN) (h1N : md1.eFormat ≠ HEADERFORMAT.NMEA)
    (h1w : md1.usWeek = 2200) (h1m : md1.dMilliseconds = 50000)
    (h2U : md2.eFormat ≠ HEADERFORMAT.UNKNOWN) (h2N : md2.eFormat ≠ HEADERFORMAT.NMEA)
    (h2w : md2.usWeek = 2200) (h2m : md2.dMilliseconds = 150000)
    (h3U : md3.eFormat ≠ HEADERFORMAT.UNKNOWN) (h3N : md3.eFormat ≠ HEADERFORMAT.NMEA)
    (h3w : md3.usWeek = 2201) (h3m : md3.dMilliseconds = 100000) :
    ((Filter.ctor.SetIncludeLowerTimeBound 2200 100000).SetIncludeUpperTimeBound
        2200 200000).DoFiltering md1 = some false
    ∧ ((Filter.ctor.SetIncludeLowerTimeBound 2200 100000).SetIncludeUpperTimeBound
        2200 200000).DoFiltering md2 = some true
    ∧ ((Filter.ctor.SetIncludeLowerTimeBound 2200 100000).SetIncludeUpperTimeBound
        2200 200000).DoFiltering md3 = some false := by
  have hfns : ((Filter.ctor.SetIncludeLowerTimeBound 2200 100000).SetIncludeUpperTimeBound
      2200 200000).vMyFilterFunctions = [FilterFunction.FilterTime] := by decide
  refine ⟨?_, ?_, ?_⟩
  · unfold Filter.DoFiltering
    rw [if_neg h1U, if_neg h1N, hfns]
    simp [Filter.DoFilteringLoop, Filter.call, Filter.FilterTime, Filter.SetIncludeUpperTimeBound,
      Filter.SetIncludeLowerTimeBound, Filter.PushUnique, Filter.ctor, Filter.ClearFilters,
      h1w, h1m]
  · unfold Filter.DoFiltering
    rw [if_neg h2U, if_neg h2N, hfns]
    simp [Filter.DoFilteringLoop, Filter.call, Filter.FilterTime, Filter.SetIncludeUpperTimeBound,
      Filter.SetIncludeLowerTimeBound, Filter.PushUnique, Filter.ctor, Filter.ClearFilters,
      h2w, h2m]
  · unfold Filter.DoFiltering
    rw [if_neg h3U, if_neg h3N, hfns]
    simp [Filter.DoFilteringLoop, Filter.call, Filter.FilterTime, Filter.SetIncludeUpperTimeBound,
      Filter.SetIncludeLowerTimeBound, Filter.PushUnique, Filter.ctor, Filter.ClearFilters,
      h3w, h3m]

theorem DoFiltering_time_window_scenario_witness :
    ((Filter.ctor.SetIncludeLowerTimeBound 2200 100000).SetIncludeUpperTimeBound
        2200 200000).DoFiltering
        (MetaDataStruct.mk HEADERFORMAT.BINARY MEASUREMENT_SOURCE.PRIMARY 0 2200 50000 42 "BESTPOS")
      = some false
    ∧ ((Filter.ctor.SetIncludeLowerTimeBound 2200 100000).SetIncludeUpperTimeBound
        2200 200000).DoFiltering
        (MetaDataStruct.mk HEADERFORMAT.ASCII MEASUREMENT_SOURCE.PRIMARY 0 2200 150000 42 "BESTPOS")
      = some true
    ∧ ((Filter.ctor.SetIncludeLowerTimeBound 2200 100000).SetIncludeUpperTimeBound
        2200 200000).DoFiltering
        (MetaDataStruct.mk HEADERFORMAT.SHORT_BINARY MEASUREMENT_SOURCE.PRIMARY 0 2201 100000 42 "BESTPOS")
      = some false :=
  DoFiltering_time_window_scenario
    (MetaDataStruct.mk HEADERFORMAT.BINARY MEASUREMENT_SOURCE.PRIMARY 0 2200 50000 42 "BESTPOS")
    (MetaDataStruct.mk HEADERFORMAT.ASCII MEASUREMENT_SOURCE.PRIMARY 0 2200 150000 42 "BESTPOS")
    (MetaDataStruct.mk HEADERFORMAT.SHORT_BINARY MEASUREMENT_SOURCE.PRIMARY 0 2201 100000 42 "BESTPOS")
    (by decide) (by decide) rfl rfl (by decide) (by decide) rfl rfl
    (by decide) (by decide) rfl rfl


/-- C11: with decimation enabled and a period of `p > 0` milliseconds, `FilterDecimation`
returns, and for a message at millisecond-of-week `ms` it admits the message if and only if
`ms mod p = 0` when the decimation filter is not inverted, and if and only if `ms mod p ≠ 0` when
it is inverted. -/
theorem FilterDecimation_enabled (f : Filter) (md : MetaDataStruct)
    (hd : f.bMyDecimate = true) (hp : 0 < f.uiMyDecimationPeriodMS) :
    (f.bMyInvertDecimation = false →
      (f.FilterDecimation md = some true ↔ md.dMilliseconds % f.uiMyDecimationPeriodMS = 0))
    ∧ (f.bMyInvertDecimation = true →
      (f.FilterDecimation md = some true ↔ md.dMilliseconds % f.uiMyDecimationPeriodMS ≠ 0))
    ∧ f.FilterDecimation md = some (f.bMyInvertDecimation
        == decide (md.dMilliseconds % f.uiMyDecimationPeriodMS ≠ 0)) := by
  have hne : f.uiMyDecimationPeriodMS ≠ 0 := Nat.pos_iff_ne_zero.mp hp
  have hval : f.FilterDecimation md = some (f.bMyInvertDecimation
      == decide (md.dMilliseconds % f.uiMyDecimationPeriodMS ≠ 0)) := by
    simp [Filter.FilterDecimation, hd, hne]
  refine ⟨?_, ?_, hval⟩
  · intro hi
    rw [hval, hi]
    simp
  · intro hi
    rw [hval, hi]
    simp

theorem FilterDecimation_enabled_witness :
    ((Filter.configured [ConfigCall.SetIncludeDecimation 1000]).bMyDecimate = true
      ∧ 0 < (Filter.configured [ConfigCall.SetIncludeDecimation 1000]).uiMyDecimationPeriodMS)
    ∧ (Filter.configured [ConfigCall.SetIncludeDecimation 1000]).FilterDecimation
        (MetaDataStruct.mk HEADERFORMAT.BINARY MEASUREMENT_SOURCE.PRIMARY 3 2200 150000 42 "BESTPOS")
      = some true :=
  ⟨⟨by decide, by decide⟩,
    ((FilterDecimation_enabled (Filter.configured [ConfigCall.SetIncludeDecimation 1000])
      (MetaDataStruct.mk HEADERFORMAT.BINARY MEASUREMENT_SOURCE.PRIMARY 3 2200 150000 42 "BESTPOS")
      (by decide) (by decide)).1 (by decide)).2 (by decide)⟩

/-- C12: with a non-empty time-status list, `FilterTimeStatus` admits a message if and only if
its time status is in the list when the filter is not inverted, and if and only if it is not in
the list when it is inverted; both `IncludeTimeStatus` overloads append to the list, so statuses
of successive calls accumulate. -/
theorem FilterTimeStatus_nonempty (f : Filter) (md : MetaDataStruct) (e : TIME_STATUS)
    (v : List TIME_STATUS) (hne : f.vMyTimeStatusFilters ≠ []) :
    (f.bMyInvertTimeStatusFilter = false →
      (f.FilterTimeStatus md = true ↔ md.eTimeStatus ∈ f.vMyTimeStatusFilters))
    ∧ (f.bMyInvertTimeStatusFilter = true →
      (f.FilterTimeStatus md = true ↔ md.eTimeStatus ∉ f.vMyTimeStatusFilters))
    ∧ (f.IncludeTimeStatus e).vMyTimeStatusFilters = f.vMyTimeStatusFilters ++ [e]
    ∧ (f.IncludeTimeStatuses v).vMyTimeStatusFilters = f.vMyTimeStatusFilters ++ v := by
  have hemp : f.vMyTimeStatusFilters.isEmpty = false := by
    cases h : f.vMyTimeStatusFilters with
    | nil => exact absurd h hne
    | cons a l => rfl
  refine ⟨?_, ?_, ?_, ?_⟩
  · intro hi
    simp [Filter.FilterTimeStatus, hemp, hi]
  · intro hi
    simp [Filter.FilterTimeStatus, hemp, hi]
  · unfold Filter.IncludeTimeStatus Filter.PushUnique
    split <;> rfl
  · unfold Filter.IncludeTimeStatuses Filter.PushUnique
    split <;> rfl

theorem FilterTimeStatus_nonempty_witness :
    (Filter.configured [ConfigCall.IncludeTimeStatus 3]).vMyTimeStatusFilters ≠ []
    ∧ (Filter.configured [ConfigCall.IncludeTimeStatus 3]).FilterTimeStatus
        (MetaDataStruct.mk HEADERFORMAT.BINARY MEASUREMENT_SOURCE.PRIMARY 3 2200 150000 42 "BESTPOS")
      = true :=
  ⟨by decide,
    ((FilterTimeStatus_nonempty (Filter.configured [ConfigCall.IncludeTimeStatus 3])
      (MetaDataStruct.mk HEADERFORMAT.BINARY MEASUREMENT_SOURCE.PRIMARY 3 2200 150000 42 "BESTPOS")
      0 [] (by decide)).1 (by decide)).2 (by decide)⟩

theorem tripleList_unmatched_iff {α : Type} [DecidableEq α]
    (l : List (α × HEADERFORMAT × MEASUREMENT_SOURCE)) (k : α) (eFormat : HEADERFORMAT)
    (eSource : MEASUREMENT_SOURCE) :
    (!(l.any fun elem =>
          decide (k = elem.1) && decide (HEADERFORMAT.ALL = elem.2.1)
            && decide (eSource = elem.2.2))
        && !(l.contains (k, eFormat, eSource))) = false ↔
      ∃ entry ∈ l, entry.1 = k ∧ entry.2.2 = eSource
          ∧ (entry.2.1 = HEADERFORMAT.ALL ∨ entry.2.1 = eFormat) := by
  simp only [Bool.and_eq_false_iff, Bool.not_eq_false', List.any_eq_true, Bool.and_eq_true,
    decide_eq_true_eq, List.contains_iff_exists_mem_beq, beq_iff_eq]
  constructor
  · rintro (⟨x, hx, ⟨h1, h2⟩, h3⟩ | ⟨x, hx, h⟩)
    · exact ⟨x, hx, h1.symm, h3.symm, Or.inl h2.symm⟩
    · refine ⟨x, hx, ?_, ?_, Or.inr ?_⟩ <;> rw [← h]
  · rintro ⟨⟨i, fm, s⟩, hx, h1, h2, h3 | h3⟩
    · exact Or.inl ⟨_, hx, ⟨h1.symm, h3.symm⟩, h2.symm⟩
    · refine Or.inr ⟨_, hx, ?_⟩
      simp only at h1 h2 h3
      rw [h1, h2, h3]

theorem invert_beq_unmatched (inv unmatched : Bool) (P : Prop) (key : unmatched = false ↔ P) :
    (inv = false → ((inv == unmatched) = true ↔ P))
    ∧ (inv = true → ((inv == unmatched) = true ↔ ¬ P)) := by
  constructor
  · intro hi
    rw [hi, ← key]
    cases unmatched <;> simp
  · intro hi
    rw [hi, ← key]
    cases unmatched <;> simp

/-- C13: with a non-empty message-id list, call a message matched when some entry `(i, f, s)`
has `i` equal to its id, `s` equal to its measurement source, and `f` equal to `ALL` or to its
format. `FilterMessageId` admits the message if and only if it is matched when not inverted, and
if and only if it is not matched when inverted. In particular, when every entry has a measurement
source other than the message's, nothing matches and the non-inverted filter rejects the message,
whatever the formats of the entries. -/
theorem FilterMessageId_nonempty (f : Filter) (md : MetaDataStruct)
    (hne : f.vMyMessageIdFilters ≠ []) :
    (f.bMyInvertMessageIdFilter = false →
      (f.FilterMessageId md = true ↔
        ∃ entry ∈ f.vMyMessageIdFilters, entry.1 = md.usMessageID
          ∧ entry.2.2 = md.eMeasurementSource
          ∧ (entry.2.1 = HEADERFORMAT.ALL ∨ entry.2.1 = md.eFormat)))
    ∧ (f.bMyInvertMessageIdFilter = true →
      (f.FilterMessageId md = true ↔
        ¬ ∃ entry ∈ f.vMyMessageIdFilters, entry.1 = md.usMessageID
          ∧ entry.2.2 = md.eMeasurementSource
          ∧ (entry.2.1 = HEADERFORMAT.ALL ∨ entry.2.1 = md.eFormat)))
    ∧ (f.bMyInvertMessageIdFilter = false →
        (∀ entry ∈ f.vMyMessageIdFilters, entry.2.2 ≠ md.eMeasurementSource) →
        f.FilterMessageId md = false) := by
  have hemp : f.vMyMessageIdFilters.isEmpty = false := by
    cases h : f.vMyMessageIdFilters with
    | nil => exact absurd h hne
    | cons a l => rfl
  have key := tripleList_unmatched_iff f.vMyMessageIdFilters md.usMessageID md.eFormat
    md.eMeasurementSource
  have hval : f.FilterMessageId md = (f.bMyInvertMessageIdFilter ==
      (!(f.vMyMessageIdFilters.any fun elem =>
          decide (md.usMessageID = elem.1) && decide (HEADERFORMAT.ALL = elem.2.1)
            && decide (md.eMeasurementSource = elem.2.2))
        && !(f.vMyMessageIdFilters.contains
          (md.usMessageID, md.eFormat, md.eMeasurementSource)))) := by
    simp only [Filter.FilterMessageId, hemp]
    rfl
  rw [hval]
  have h := invert_beq_unmatched f.bMyInvertMessageIdFilter _ _ key
  refine ⟨h.1, h.2, ?_⟩
  intro hi hsrc
  have hno : ¬ ∃ entry ∈ f.vMyMessageIdFilters, entry.1 = md.usMessageID
        ∧ entry.2.2 = md.eMeasurementSource
        ∧ (entry.2.1 = HEADERFORMAT.ALL ∨ entry.2.1 = md.eFormat) := by
    rintro ⟨x, hx, _, h2, _⟩
    exact hsrc x hx h2
  exact Bool.eq_false_iff.mpr fun ht => hno ((h.1 hi).mp ht)

theorem FilterMessageId_nonempty_witness :
    (Filter.configured
        [ConfigCall.IncludeMessageId 42 HEADERFORMAT.ALL MEASUREMENT_SOURCE.PRIMARY]).vMyMessageIdFilters ≠ []
    ∧ (Filter.configured
        [ConfigCall.IncludeMessageId 42 HEADERFORMAT.ALL MEASUREMENT_SOURCE.PRIMARY]).FilterMessageId
        (MetaDataStruct.mk HEADERFORMAT.BINARY MEASUREMENT_SOURCE.PRIMARY 3 2200 150000 42 "BESTPOS")
      = true :=
  ⟨by decide,
    ((FilterMessageId_nonempty
      (Filter.configured
        [ConfigCall.IncludeMessageId 42 HEADERFORMAT.ALL MEASUREMENT_SOURCE.PRIMARY])
      (MetaDataStruct.mk HEADERFORMAT.BINARY MEASUREMENT_SOURCE.PRIMARY 3 2200 150000 42 "BESTPOS")
      (by decide)).1 (by decide)).2
      ⟨(42, HEADERFORMAT.ALL, MEASUREMENT_SOURCE.PRIMARY), by decide, rfl, rfl, Or.inl rfl⟩⟩

/-- C14: with a non-empty message-name list, call a message matched when some entry
`(n, f, s)` has `n` equal to its name, `s` equal to its measurement source, and `f` equal to `ALL`
or to its format. `FilterMessage` admits the message if and only if it is matched when not
inverted, and if and only if it is not matched when inverted: the semantics of the message-id
filter with the name in place of the id. -/
theorem FilterMessage_nonempty (f : Filter) (md : MetaDataStruct)
    (hne : f.vMyMessageNameFilters ≠ []) :
    (f.bMyInvertMessageNameFilter = false →
      (f.FilterMessage md = true ↔
        ∃ entry ∈ f.vMyMessageNameFilters, entry.1 = md.MessageName
          ∧ entry.2.2 = md.eMeasurementSource
          ∧ (entry.2.1 = HEADERFORMAT.ALL ∨ entry.2.1 = md.eFormat)))
    ∧ (f.bMyInvertMessageNameFilter = true →
      (f.FilterMessage md = true ↔
        ¬ ∃ entry ∈ f.vMyMessageNameFilters, entry.1 = md.MessageName
          ∧ entry.2.2 = md.eMeasurementSource
          ∧ (entry.2.1 = HEADERFORMAT.ALL ∨ entry.2.1 = md.eFormat))) := by
  have hemp : f.vMyMessageNameFilters.isEmpty = false := by
    cases h : f.vMyMessageNameFilters with
    | nil => exact absurd h hne
    | cons a l => rfl
  have key := tripleList_unmatched_iff f.vMyMessageNameFilters md.MessageName md.eFormat
    md.eMeasurementSource
  have hval : f.FilterMessage md = (f.bMyInvertMessageNameFilter ==
      (!(f.vMyMessageNameFilters.any fun elem =>
          decide (md.MessageName = elem.1) && decide (HEADERFORMAT.ALL = elem.2.1)
            && decide (md.eMeasurementSource = elem.2.2))
        && !(f.vMyMessageNameFilters.contains
          (md.MessageName, md.eFormat, md.eMeasurementSource)))) := by
    simp only [Filter.FilterMessage, hemp]
    rfl
  rw [hval]
  exact invert_beq_unmatched f.bMyInvertMessageNameFilter _ _ key

theorem FilterMessage_nonempty_witness :
    (Filter.configured
        [ConfigCall.IncludeMessageName "BESTPOS" HEADERFORMAT.ALL MEASUREMENT_SOURCE.PRIMARY]).vMyMessageNameFilters ≠ []
    ∧ (Filter.configured
        [ConfigCall.IncludeMessageName "BESTPOS" HEADERFORMAT.ALL MEASUREMENT_SOURCE.PRIMARY]).FilterMessage
        (MetaDataStruct.mk HEADERFORMAT.BINARY MEASUREMENT_SOURCE.PRIMARY 3 2200 150000 42 "BESTPOS")
      = true :=
  ⟨by decide,
    ((FilterMessage_nonempty
      (Filter.configured
        [ConfigCall.IncludeMessageName "BESTPOS" HEADERFORMAT.ALL MEASUREMENT_SOURCE.PRIMARY])
      (MetaDataStruct.mk HEADERFORMAT.BINARY MEASUREMENT_SOURCE.PRIMARY 3 2200 150000 42 "BESTPOS")
      (by decide)).1 (by decide)).2
      ⟨("BESTPOS", HEADERFORMAT.ALL, MEASUREMENT_SOURCE.PRIMARY), by decide, rfl, rfl,
        Or.inl rfl⟩⟩

/-- C16: after `ClearFilters` on any filter state, and on a newly constructed filter, no
predicate is registered, and `DoFiltering` admits exactly the messages whose format is neither
UNKNOWN nor NMEA: every NMEA and every UNKNOWN message is rejected, whatever had been configured
before. -/
theorem DoFiltering_after_ClearFilters (f : Filter) (md : MetaDataStruct) :
    f.ClearFilters.vMyFilterFunctions = []
    ∧ Filter.ctor.vMyFilterFunctions = []
    ∧ f.ClearFilters.DoFiltering md
      = some (decide (md.eFormat ≠ HEADERFORMAT.UNKNOWN ∧ md.eFormat ≠ HEADERFORMAT.NMEA))
    ∧ Filter.ctor.DoFiltering md
      = some (decide (md.eFormat ≠ HEADERFORMAT.UNKNOWN ∧ md.eFormat ≠ HEADERFORMAT.NMEA)) := by
  have h : ∀ g : Filter, g.ClearFilters.DoFiltering md
      = some (decide (md.eFormat ≠ HEADERFORMAT.UNKNOWN ∧ md.eFormat ≠ HEADERFORMAT.NMEA)) := by
    intro g
    unfold Filter.DoFiltering
    by_cases hU : md.eFormat = HEADERFORMAT.UNKNOWN
    · simp [hU]
    · by_cases hN : md.eFormat = HEADERFORMAT.NMEA
      · simp [hN, Filter.ClearFilters]
      · simp [hU, hN, Filter.ClearFilters, Filter.DoFilteringLoop]
  exact ⟨rfl, rfl, h f, h _⟩


theorem PushUnique_mem_self (f : Filter) (fn : FilterFunction) :
    fn ∈ (f.PushUnique fn).vMyFilterFunctions := by
  unfold Filter.PushUnique
  split
  · simp
  · rename_i h
    simpa using h

theorem PushUnique_mem_of_mem (f : Filter) (fn a : FilterFunction)
    (h : a ∈ f.vMyFilterFunctions) : a ∈ (f.PushUnique fn).vMyFilterFunctions := by
  unfold Filter.PushUnique
  split
  · simp [h]
  · exact h

theorem ConfiguredRegistered_PushUnique (f g : Filter) (fn : FilterFunction)
    (hmem : ∀ a ∈ f.vMyFilterFunctions, a ∈ g.vMyFilterFunctions)
    (h : f.ConfiguredRegistered)
    (hT : g.bMyFilterLowerTime = true ∨ g.bMyFilterUpperTime = true →
      (f.bMyFilterLowerTime = true ∨ f.bMyFilterUpperTime = true)
        ∨ fn = FilterFunction.FilterTime)
    (hD : g.bMyDecimate = true → f.bMyDecimate = true ∨ fn = FilterFunction.FilterDecimation)
    (hS : g.vMyTimeStatusFilters ≠ [] →
      f.vMyTimeStatusFilters ≠ [] ∨ fn = FilterFunction.FilterTimeStatus)
    (hI : g.vMyMessageIdFilters ≠ [] →
      f.vMyMessageIdFilters ≠ [] ∨ fn = FilterFunction.FilterMessageId)
    (hM : g.vMyMessageNameFilters ≠ [] →
      f.vMyMessageNameFilters ≠ [] ∨ fn = FilterFunction.FilterMessage) :
    (g.PushUnique fn).ConfiguredRegistered := by
  obtain ⟨h1, h2, h3, h4, h5⟩ := h
  have e1 : (g.PushUnique fn).bMyFilterLowerTime = g.bMyFilterLowerTime := by
    unfold Filter.PushUnique; split <;> rfl
  have e2 : (g.PushUnique fn).bMyFilterUpperTime = g.bMyFilterUpperTime := by
    unfold Filter.PushUnique; split <;> rfl
  have e3 : (g.PushUnique fn).bMyDecimate = g.bMyDecimate := by
    unfold Filter.PushUnique; split <;> rfl
  have e4 : (g.PushUnique fn).vMyTimeStatusFilters = g.vMyTimeStatusFilters := by
    unfold Filter.PushUnique; split <;> rfl
  have e5 : (g.PushUnique fn).vMyMessageIdFilters = g.vMyMessageIdFilters := by
    unfold Filter.PushUnique; split <;> rfl
  have e6 : (g.PushUnique fn).vMyMessageNameFilters = g.vMyMessageNameFilters := by
    unfold Filter.PushUnique; split <;> rfl
  have up : ∀ a, a ∈ f.vMyFilterFunctions → a ∈ (g.PushUnique fn).vMyFilterFunctions :=
    fun a ha => PushUnique_mem_of_mem g fn a (hmem a ha)
  have self := PushUnique_mem_self g fn
  unfold Filter.ConfiguredRegistered
  rw [e1, e2, e3, e4, e5, e6]
  refine ⟨fun hg => ?_, fun hg => ?_, fun hg => ?_, fun hg => ?_, fun hg => ?_⟩
  · rcases hT hg with hf | hf
    · exact up _ (h1 hf)
    · exact hf ▸ self
  · rcases hD hg with hf | hf
    · exact up _ (h2 hf)
    · exact hf ▸ self
  · rcases hS hg with hf | hf
    · exact up _ (h3 hf)
    · exact hf ▸ self
  · rcases hI hg with hf | hf
    · exact up _ (h4 hf)
    · exact hf ▸ self
  · rcases hM hg with hf | hf
    · exact up _ (h5 hf)
    · exact hf ▸ self

theorem configure_ConfiguredRegistered (f : Filter) (c : ConfigCall)
    (h : f.ConfiguredRegistered) : (f.configure c).ConfiguredRegistered := by
  cases c with
  | SetIncludeLowerTimeBound w ms =>
    exact ConfiguredRegistered_PushUnique f _ _ (fun _ ha => ha) h (fun _ => Or.inr rfl)
      Or.inl Or.inl Or.inl Or.inl
  | SetIncludeUpperTimeBound w ms =>
    exact ConfiguredRegistered_PushUnique f _ _ (fun _ ha => ha) h (fun _ => Or.inr rfl)
      Or.inl Or.inl Or.inl Or.inl
  | SetIncludeDecimation p =>
    exact ConfiguredRegistered_PushUnique f _ _ (fun _ ha => ha) h Or.inl (fun _ => Or.inr rfl)
      Or.inl Or.inl Or.inl
  | IncludeTimeStatus e =>
    exact ConfiguredRegistered_PushUnique f _ _ (fun _ ha => ha) h Or.inl Or.inl
      (fun _ => Or.inr rfl) Or.inl Or.inl
  | IncludeTimeStatuses v =>
    exact ConfiguredRegistered_PushUnique f _ _ (fun _ ha => ha) h Or.inl Or.inl
      (fun _ => Or.inr rfl) Or.inl Or.inl
  | IncludeMessageId i e s =>
    exact ConfiguredRegistered_PushUnique f _ _ (fun _ ha => ha) h Or.inl Or.inl Or.inl
      (fun _ => Or.inr rfl) Or.inl
  | IncludeMessageIds v =>
    exact ConfiguredRegistered_PushUnique f _ _ (fun _ ha => ha) h Or.inl Or.inl Or.inl
      (fun _ => Or.inr rfl) Or.inl
  | IncludeMessageName n e s =>
    exact ConfiguredRegistered_PushUnique f _ _ (fun _ ha => ha) h Or.inl Or.inl Or.inl Or.inl
      (fun _ => Or.inr rfl)
  | IncludeMessageNames v =>
    exact ConfiguredRegistered_PushUnique f _ _ (fun _ ha => ha) h Or.inl Or.inl Or.inl Or.inl
      (fun _ => Or.inr rfl)
  | InvertTimeFilter b => exact h
  | InvertDecimationFilter b => exact h
  | InvertTimeStatusFilter b => exact h
  | InvertMessageIdFilter b => exact h
  | InvertMessageNameFilter b => exact h
  | IncludeNMEAMessages b => exact h
  | ClearFilters =>
    refine ⟨fun hg => ?_, fun hg => ?_, fun hg => ?_, fun hg => ?_, fun hg => ?_⟩
    · rcases hg with hg | hg <;> exact absurd (show false = true from hg) (by decide)
    · exact absurd (show false = true from hg) (by decide)
    · exact absurd rfl hg
    · exact absurd rfl hg
    · exact absurd rfl hg

theorem configured_ConfiguredRegistered (calls : List ConfigCall) :
    (Filter.configured calls).ConfiguredRegistered := by
  induction calls using List.reverseRecOn with
  | nil =>
    exact configure_ConfiguredRegistered Filter.ctor ConfigCall.ClearFilters
      ⟨fun hg => by
          rcases hg with hg | hg <;> exact absurd (show false = true from hg) (by decide),
        fun hg => absurd (show false = true from hg) (by decide), fun hg => absurd rfl hg,
        fun hg => absurd rfl hg, fun hg => absurd rfl hg⟩
  | append_singleton calls c ih =>
    rw [configured_append]
    exact configure_ConfiguredRegistered _ c ih


theorem FilterTime_unconfigured (f : Filter) (md : MetaDataStruct)
    (hL : f.bMyFilterLowerTime = false) (hU : f.bMyFilterUpperTime = false) :
    f.FilterTime md = true := by
  unfold Filter.FilterTime
  cases f.bMyInvertTimeFilter <;> simp [hL, hU]

theorem predicates_unconfigured (g : Filter) (md : MetaDataStruct) :
    (g.bMyFilterLowerTime = false → g.bMyFilterUpperTime = false → g.FilterTime md = true)
    ∧ (g.bMyDecimate = false → g.FilterDecimation md = some true)
    ∧ (g.vMyTimeStatusFilters = [] → g.FilterTimeStatus md = true)
    ∧ (g.vMyMessageIdFilters = [] → g.FilterMessageId md = true)
    ∧ (g.vMyMessageNameFilters = [] → g.FilterMessage md = true) := by
  refine ⟨FilterTime_unconfigured g md, fun h => ?_, fun h => ?_, fun h => ?_, fun h => ?_⟩
  · simp [Filter.FilterDecimation, h]
  · simp [Filter.FilterTimeStatus, h]
  · simp [Filter.FilterMessageId, h]
  · simp [Filter.FilterMessage, h]

theorem call_of_not_mem (f : Filter) (md : MetaDataStruct) (fn : FilterFunction)
    (h : f.ConfiguredRegistered) (hfn : fn ∉ f.vMyFilterFunctions) :
    f.call fn md = some true := by
  obtain ⟨h1, h2, h3, h4, h5⟩ := h
  cases fn with
  | FilterTime =>
    have hL : f.bMyFilterLowerTime = false :=
      Bool.eq_false_iff.mpr fun hc => hfn (h1 (Or.inl hc))
    have hU : f.bMyFilterUpperTime = false :=
      Bool.eq_false_iff.mpr fun hc => hfn (h1 (Or.inr hc))
    simp [Filter.call, FilterTime_unconfigured f md hL hU]
  | FilterDecimation =>
    have hD : f.bMyDecimate = false := Bool.eq_false_iff.mpr fun hc => hfn (h2 hc)
    simp [Filter.call, Filter.FilterDecimation, hD]
  | FilterTimeStatus =>
    have hE : f.vMyTimeStatusFilters = [] := by
      by_contra hc
      exact hfn (h3 hc)
    simp [Filter.call, Filter.FilterTimeStatus, hE]
  | FilterMessageId =>
    have hE : f.vMyMessageIdFilters = [] := by
      by_contra hc
      exact hfn (h4 hc)
    simp [Filter.call, Filter.FilterMessageId, hE]
  | FilterMessage =>
    have hE : f.vMyMessageNameFilters = [] := by
      by_contra hc
      exact hfn (h5 hc)
    simp [Filter.call, Filter.FilterMessage, hE]

theorem DoFilteringLoop_isSome (f : Filter) (md : MetaDataStruct) (fns : List FilterFunction)
    (h : ∀ fn ∈ fns, ∃ b, f.call fn md = some b) : ∃ b, f.DoFilteringLoop md fns = some b := by
  induction fns with
  | nil => exact ⟨true, rfl⟩
  | cons fn rest ih =>
    obtain ⟨b, hb⟩ := h fn (List.mem_cons_self fn rest)
    unfold Filter.DoFilteringLoop
    rw [hb]
    cases b with
    | false => exact ⟨false, rfl⟩
    | true => exact ih fun a ha => h a (List.mem_cons_of_mem fn ha)

theorem DoFilteringLoop_eq_conjunction (f : Filter) (md : MetaDataStruct) (d : Bool)
    (h : f.ConfiguredRegistered) (hd : f.FilterDecimation md = some d) :
    f.DoFilteringLoop md f.vMyFilterFunctions
      = some (f.FilterTime md && d && f.FilterTimeStatus md && f.FilterMessageId md
          && f.FilterMessage md) := by
  have htotal : ∀ fn, ∃ b, f.call fn md = some b := by
    intro fn
    cases fn with
    | FilterDecimation => exact ⟨d, hd⟩
    | FilterTime => exact ⟨_, rfl⟩
    | FilterTimeStatus => exact ⟨_, rfl⟩
    | FilterMessageId => exact ⟨_, rfl⟩
    | FilterMessage => exact ⟨_, rfl⟩
  obtain ⟨b, hb⟩ := DoFilteringLoop_isSome f md f.vMyFilterFunctions fun fn _ => htotal fn
  have hiff := DoFilteringLoop_eq_true_iff f md f.vMyFilterFunctions
  have hall : (∀ fn ∈ f.vMyFilterFunctions, f.call fn md = some true) ↔
      (f.FilterTime md && d && f.FilterTimeStatus md && f.FilterMessageId md
          && f.FilterMessage md) = true := by
    constructor
    · intro hmem
      have hevery : ∀ fn, f.call fn md = some true := by
        intro fn
        by_cases hfn : fn ∈ f.vMyFilterFunctions
        · exact hmem fn hfn
        · exact call_of_not_mem f md fn h hfn
      have c1 := hevery FilterFunction.FilterTime
      have c2 := hevery FilterFunction.FilterDecimation
      have c3 := hevery FilterFunction.FilterTimeStatus
      have c4 := hevery FilterFunction.FilterMessageId
      have c5 := hevery FilterFunction.FilterMessage
      simp only [Filter.call, Option.some.injEq] at c1 c3 c4 c5
      have c2b : d = true := by
        have : some d = some true := hd ▸ c2
        exact Option.some.inj this
      simp [c1, c2b, c3, c4, c5]
    · intro hconj fn _
      simp only [Bool.and_eq_true] at hconj
      obtain ⟨⟨⟨⟨c1, c2⟩, c3⟩, c4⟩, c5⟩ := hconj
      cases fn with
      | FilterDecimation => rw [← c2]; exact hd
      | FilterTime => simp [Filter.call, c1]
      | FilterTimeStatus => simp [Filter.call, c3]
      | FilterMessageId => simp [Filter.call, c4]
      | FilterMessage => simp [Filter.call, c5]
  rw [hb]
  congr 1
  rw [hb] at hiff
  rw [Bool.eq_iff_iff, ← hall, ← hiff]
  simp

theorem FilterDecimation_isSome (f : Filter) (md : MetaDataStruct)
    (hp : f.bMyDecimate = true → f.uiMyDecimationPeriodMS ≠ 0) :
    ∃ d, f.FilterDecimation md = some d := by
  unfold Filter.FilterDecimation
  cases hD : f.bMyDecimate with
  | false => exact ⟨true, by simp⟩
  | true =>
    have hne := hp hD
    exact ⟨f.bMyInvertDecimation
      == decide (md.dMilliseconds % f.uiMyDecimationPeriodMS ≠ 0), by simp [hne]⟩

/-- C18: in every filter state reached from construction by configuration calls in which the
decimation period is non-zero whenever decimation is enabled, and for every message whose format
is neither UNKNOWN nor NMEA, `DoFiltering` returns the conjunction of all five predicates
`FilterTime`, `FilterDecimation`, `FilterTimeStatus`, `FilterMessageId` and `FilterMessage`,
registered or not: a predicate absent from the registered list returns true on every message,
because every configured dimension has its predicate registered and, in any state, a predicate
whose dimension is unconfigured returns true whatever its invert flag. Hence the result does not depend
on the order of registration: two call sequences that leave the same configuration data give the
same result. -/
theorem DoFiltering_eq_all_predicates (calls calls2 : List ConfigCall) (md : MetaDataStruct)
    (hp : (Filter.configured calls).bMyDecimate = true →
      (Filter.configured calls).uiMyDecimationPeriodMS ≠ 0)
    (hU : md.eFormat ≠ HEADERFORMAT.UNKNOWN) (hN : md.eFormat ≠ HEADERFORMAT.NMEA) :
    (∃ d, (Filter.configured calls).FilterDecimation md = some d
      ∧ (Filter.configured calls).DoFiltering md
        = some ((Filter.configured calls).FilterTime md && d
          && (Filter.configured calls).FilterTimeStatus md
          && (Filter.configured calls).FilterMessageId md
          && (Filter.configured calls).FilterMessage md))
    ∧ (∀ fn, fn ∉ (Filter.configured calls).vMyFilterFunctions →
        (Filter.configured calls).call fn md = some true)
    ∧ (Filter.configured calls).ConfiguredRegistered
    ∧ (∀ g : Filter,
        (g.bMyFilterLowerTime = false → g.bMyFilterUpperTime = false → g.FilterTime md = true)
        ∧ (g.bMyDecimate = false → g.FilterDecimation md = some true)
        ∧ (g.vMyTimeStatusFilters = [] → g.FilterTimeStatus md = true)
        ∧ (g.vMyMessageIdFilters = [] → g.FilterMessageId md = true)
        ∧ (g.vMyMessageNameFilters = [] → g.FilterMessage md = true))
    ∧ ({ Filter.configured calls2 with vMyFilterFunctions := [] }
          = { Filter.configured calls with vMyFilterFunctions := [] } →
        (Filter.configured calls2).DoFiltering md = (Filter.configured calls).DoFiltering md) := by
  have hreg := configured_ConfiguredRegistered calls
  obtain ⟨d, hd⟩ := FilterDecimation_isSome (Filter.configured calls) md hp
  have hmain : ∀ g : Filter, g.ConfiguredRegistered → g.FilterDecimation md = some d →
      g.DoFiltering md = some (g.FilterTime md && d && g.FilterTimeStatus md
        && g.FilterMessageId md && g.FilterMessage md) := by
    intro g hg hgd
    unfold Filter.DoFiltering
    rw [if_neg hU, if_neg hN]
    exact DoFilteringLoop_eq_conjunction g md d hg hgd
  refine ⟨⟨d, hd, hmain _ hreg hd⟩,
    fun fn hfn => call_of_not_mem _ md fn hreg hfn, hreg,
    fun g => predicates_unconfigured g md, ?_⟩
  intro hsame
  have e1 : (Filter.configured calls2).FilterTime md = (Filter.configured calls).FilterTime md := by
    have h := congrArg (fun g => Filter.FilterTime g md) hsame
    exact h
  have e2 : (Filter.configured calls2).FilterDecimation md
      = (Filter.configured calls).FilterDecimation md := by
    have h := congrArg (fun g => Filter.FilterDecimation g md) hsame
    exact h
  have e3 : (Filter.configured calls2).FilterTimeStatus md
      = (Filter.configured calls).FilterTimeStatus md := by
    have h := congrArg (fun g => Filter.FilterTimeStatus g md) hsame
    exact h
  have e4 : (Filter.configured calls2).FilterMessageId md
      = (Filter.configured calls).FilterMessageId md := by
    have h := congrArg (fun g => Filter.FilterMessageId g md) hsame
    exact h
  have e5 : (Filter.configured calls2).FilterMessage md
      = (Filter.configured calls).FilterMessage md := by
    have h := congrArg (fun g => Filter.FilterMessage g md) hsame
    exact h
  rw [hmain _ hreg hd, hmain _ (configured_ConfiguredRegistered calls2) (e2.trans hd),
    e1, e3, e4, e5]

theorem DoFiltering_eq_all_predicates_witness :
    (((Filter.configured
          [ConfigCall.SetIncludeLowerTimeBound 2200 100000, ConfigCall.SetIncludeDecimation 1000]).bMyDecimate
          = true →
        (Filter.configured
          [ConfigCall.SetIncludeLowerTimeBound 2200 100000, ConfigCall.SetIncludeDecimation 1000]).uiMyDecimationPeriodMS
          ≠ 0)
      ∧ (MetaDataStruct.mk HEADERFORMAT.BINARY MEASUREMENT_SOURCE.PRIMARY 3 2200 150000 42 "BESTPOS").eFormat
        ≠ HEADERFORMAT.UNKNOWN
      ∧ (MetaDataStruct.mk HEADERFORMAT.BINARY MEASUREMENT_SOURCE.PRIMARY 3 2200 150000 42 "BESTPOS").eFormat
        ≠ HEADERFORMAT.NMEA)
    ∧ (Filter.configured
        [ConfigCall.SetIncludeDecimation 1000, ConfigCall.SetIncludeLowerTimeBound 2200 100000]).DoFiltering
        (MetaDataStruct.mk HEADERFORMAT.BINARY MEASUREMENT_SOURCE.PRIMARY 3 2200 150000 42 "BESTPOS")
      = (Filter.configured
        [ConfigCall.SetIncludeLowerTimeBound 2200 100000, ConfigCall.SetIncludeDecimation 1000]).DoFiltering
        (MetaDataStruct.mk HEADERFORMAT.BINARY MEASUREMENT_SOURCE.PRIMARY 3 2200 150000 42 "BESTPOS") :=
  ⟨⟨fun _ => by decide, by decide, by decide⟩,
    (DoFiltering_eq_all_predicates
      [ConfigCall.SetIncludeLowerTimeBound 2200 100000, ConfigCall.SetIncludeDecimation 1000]
      [ConfigCall.SetIncludeDecimation 1000, ConfigCall.SetIncludeLowerTimeBound 2200 100000]
      (MetaDataStruct.mk HEADERFORMAT.BINARY MEASUREMENT_SOURCE.PRIMARY 3 2200 150000 42 "BESTPOS")
      (fun _ => by decide) (by decide) (by decide)).2.2.2.2 (by decide)⟩

/-- C19, failing input: after `SetIncludeDecimation` with a period that truncates to 0 ms
(`SetIncludeDecimation(0.0)`), decimation is enabled with a stored period of zero, so the
remainder in `FilterDecimation` is taken modulo zero and `DoFiltering` has no defined result. -/
theorem SetIncludeDecimation_zero_period :
    (Filter.configured [ConfigCall.SetIncludeDecimation 0]).bMyDecimate = true
    ∧ (Filter.configured [ConfigCall.SetIncludeDecimation 0]).uiMyDecimationPeriodMS = 0
    ∧ (Filter.configured [ConfigCall.SetIncludeDecimation 0]).FilterDecimation
        (MetaDataStruct.mk HEADERFORMAT.BINARY MEASUREMENT_SOURCE.PRIMARY 3 2200 150000 42 "BESTPOS") = none
    ∧ (Filter.configured [ConfigCall.SetIncludeDecimation 0]).DoFiltering
        (MetaDataStruct.mk HEADERFORMAT.BINARY MEASUREMENT_SOURCE.PRIMARY 3 2200 150000 42 "BESTPOS") = none := by
  decide

theorem FilterMessageId_of_nonempty (f : Filter) (md : MetaDataStruct)
    (hne : f.vMyMessageIdFilters ≠ []) :
    f.FilterMessageId md = (f.bMyInvertMessageIdFilter ==
      (!(f.vMyMessageIdFilters.any fun elem =>
          decide (md.usMessageID = elem.1) && decide (HEADERFORMAT.ALL = elem.2.1)
            && decide (md.eMeasurementSource = elem.2.2))
        && !(f.vMyMessageIdFilters.contains
          (md.usMessageID, md.eFormat, md.eMeasurementSource)))) := by
  have hemp : f.vMyMessageIdFilters.isEmpty = false := by
    cases h : f.vMyMessageIdFilters with
    | nil => exact absurd h hne
    | cons a l => rfl
  simp only [Filter.FilterMessageId, hemp]
  rfl

theorem FilterMessageId_mono (f g : Filter) (md : MetaDataStruct)
    (hf : f.bMyInvertMessageIdFilter = false) (hg : g.bMyInvertMessageIdFilter = false)
    (hne : f.vMyMessageIdFilters ≠ [])
    (hsub : ∀ entry ∈ f.vMyMessageIdFilters, entry ∈ g.vMyMessageIdFilters)
    (hadm : f.FilterMessageId md = true) : g.FilterMessageId md = true := by
  have hgne : g.vMyMessageIdFilters ≠ [] := by
    cases hl : f.vMyMessageIdFilters with
    | nil => exact absurd hl hne
    | cons a l =>
      have hmem : a ∈ g.vMyMessageIdFilters := hsub a (by rw [hl]; exact List.mem_cons_self a l)
      exact List.ne_nil_of_mem hmem
  rw [FilterMessageId_of_nonempty f md hne] at hadm
  rw [FilterMessageId_of_nonempty g md hgne]
  have kf := tripleList_unmatched_iff f.vMyMessageIdFilters md.usMessageID md.eFormat
    md.eMeasurementSource
  have kg := tripleList_unmatched_iff g.vMyMessageIdFilters md.usMessageID md.eFormat
    md.eMeasurementSource
  have hmf := ((invert_beq_unmatched f.bMyInvertMessageIdFilter _ _ kf).1 hf).mp hadm
  obtain ⟨entry, hmem, hrest⟩ := hmf
  exact ((invert_beq_unmatched g.bMyInvertMessageIdFilter _ _ kg).1 hg).mpr
    ⟨entry, hsub entry hmem, hrest⟩

/-- C23: for a non-inverted message-id filter whose list is already non-empty, adding an entry
(or a vector of entries) with `IncludeMessageId` never turns an admitted message into a rejected
one. Going from an empty list, which admits every message, to a one-entry list can reject a
message: a new filter admits the message with id 42, and after `IncludeMessageId(43, ALL,
PRIMARY)` it rejects it. -/
theorem IncludeMessageId_admits_more (f : Filter) (md : MetaDataStruct) (uiId_ : Nat)
    (eFormat_ : HEADERFORMAT) (eSource_ : MEASUREMENT_SOURCE)
    (vIds_ : List (Nat × HEADERFORMAT × MEASUREMENT_SOURCE))
    (hinv : f.bMyInvertMessageIdFilter = false) (hne : f.vMyMessageIdFilters ≠ [])
    (hadm : f.FilterMessageId md = true) :
    (f.IncludeMessageId uiId_ eFormat_ eSource_).FilterMessageId md = true
    ∧ (f.IncludeMessageIds vIds_).FilterMessageId md = true
    ∧ Filter.FilterMessageId { f with vMyMessageIdFilters := [] } md = true
    ∧ Filter.ctor.FilterMessageId
        (MetaDataStruct.mk HEADERFORMAT.BINARY MEASUREMENT_SOURCE.PRIMARY 0 2200 150000 42
          "BESTPOS") = true
    ∧ (Filter.ctor.IncludeMessageId 43 HEADERFORMAT.ALL MEASUREMENT_SOURCE.PRIMARY).FilterMessageId
        (MetaDataStruct.mk HEADERFORMAT.BINARY MEASUREMENT_SOURCE.PRIMARY 0 2200 150000 42
          "BESTPOS") = false := by
  have l1 : (f.IncludeMessageId uiId_ eFormat_ eSource_).vMyMessageIdFilters
      = f.vMyMessageIdFilters ++ [(uiId_, eFormat_, eSource_)] := by
    unfold Filter.IncludeMessageId Filter.PushUnique
    split <;> rfl
  have i1 : (f.IncludeMessageId uiId_ eFormat_ eSource_).bMyInvertMessageIdFilter
      = f.bMyInvertMessageIdFilter := by
    unfold Filter.IncludeMessageId Filter.PushUnique
    split <;> rfl
  have l2 : (f.IncludeMessageIds vIds_).vMyMessageIdFilters = f.vMyMessageIdFilters ++ vIds_ := by
    unfold Filter.IncludeMessageIds Filter.PushUnique
    split <;> rfl
  have i2 : (f.IncludeMessageIds vIds_).bMyInvertMessageIdFilter
      = f.bMyInvertMessageIdFilter := by
    unfold Filter.IncludeMessageIds Filter.PushUnique
    split <;> rfl
  refine ⟨?_, ?_, by simp [Filter.FilterMessageId], by decide, by decide⟩
  · exact FilterMessageId_mono f _ md hinv (i1.trans hinv) hne
      (fun entry he => by rw [l1]; exact List.mem_append_left _ he) hadm
  · exact FilterMessageId_mono f _ md hinv (i2.trans hinv) hne
      (fun entry he => by rw [l2]; exact List.mem_append_left _ he) hadm

theorem IncludeMessageId_admits_more_witness :
    ((Filter.configured
        [ConfigCall.IncludeMessageId 42 HEADERFORMAT.ALL MEASUREMENT_SOURCE.PRIMARY]).bMyInvertMessageIdFilter
        = false
      ∧ (Filter.configured
        [ConfigCall.IncludeMessageId 42 HEADERFORMAT.ALL MEASUREMENT_SOURCE.PRIMARY]).vMyMessageIdFilters
        ≠ []
      ∧ (Filter.configured
        [ConfigCall.IncludeMessageId 42 HEADERFORMAT.ALL MEASUREMENT_SOURCE.PRIMARY]).FilterMessageId
        (MetaDataStruct.mk HEADERFORMAT.BINARY MEASUREMENT_SOURCE.PRIMARY 0 2200 150000 42
          "BESTPOS") = true)
    ∧ (Filter.IncludeMessageId
        (Filter.configured
          [ConfigCall.IncludeMessageId 42 HEADERFORMAT.ALL MEASUREMENT_SOURCE.PRIMARY])
        43 HEADERFORMAT.BINARY MEASUREMENT_SOURCE.SECONDARY).FilterMessageId
        (MetaDataStruct.mk HEADERFORMAT.BINARY MEASUREMENT_SOURCE.PRIMARY 0 2200 150000 42
          "BESTPOS") = true :=
  ⟨⟨by decide, by decide, by decide⟩,
    (IncludeMessageId_admits_more
      (Filter.configured
        [ConfigCall.IncludeMessageId 42 HEADERFORMAT.ALL MEASUREMENT_SOURCE.PRIMARY])
      (MetaDataStruct.mk HEADERFORMAT.BINARY MEASUREMENT_SOURCE.PRIMARY 0 2200 150000 42
        "BESTPOS")
      43 HEADERFORMAT.BINARY MEASUREMENT_SOURCE.SECONDARY [] (by decide) (by decide)
      (by decide)).1⟩

/-- C25: with both time bounds configured, the time filter not inverted, and the lower bound
lexicographically after the upper bound, `FilterTime` rejects every message. -/
theorem FilterTime_lower_after_upper (f : Filter) (md : MetaDataStruct)
    (hL : f.bMyFilterLowerTime = true) (hU : f.bMyFilterUpperTime = true)
    (hinv : f.bMyInvertTimeFilter = false)
    (hgt : toLex (f.uiMyUpperWeek, f.uiMyUpperMSec) < toLex (f.uiMyLowerWeek, f.uiMyLowerMSec)) :
    f.FilterTime md = false := by
  rw [lex_lt_iff] at hgt
  rw [Bool.eq_false_iff]
  intro ht
  simp only [Filter.FilterTime, hinv, hL, hU] at ht
  simp at ht
  omega

theorem FilterTime_lower_after_upper_witness :
    ((Filter.configured [ConfigCall.SetIncludeLowerTimeBound 2200 200000,
        ConfigCall.SetIncludeUpperTimeBound 2200 100000]).bMyFilterLowerTime = true
      ∧ (Filter.configured [ConfigCall.SetIncludeLowerTimeBound 2200 200000,
        ConfigCall.SetIncludeUpperTimeBound 2200 100000]).bMyFilterUpperTime = true
      ∧ (Filter.configured [ConfigCall.SetIncludeLowerTimeBound 2200 200000,
        ConfigCall.SetIncludeUpperTimeBound 2200 100000]).bMyInvertTimeFilter = false
      ∧ toLex ((Filter.configured [ConfigCall.SetIncludeLowerTimeBound 2200 200000,
            ConfigCall.SetIncludeUpperTimeBound 2200 100000]).uiMyUpperWeek,
          (Filter.configured [ConfigCall.SetIncludeLowerTimeBound 2200 200000,
            ConfigCall.SetIncludeUpperTimeBound 2200 100000]).uiMyUpperMSec)
        < toLex ((Filter.configured [ConfigCall.SetIncludeLowerTimeBound 2200 200000,
            ConfigCall.SetIncludeUpperTimeBound 2200 100000]).uiMyLowerWeek,
          (Filter.configured [ConfigCall.SetIncludeLowerTimeBound 2200 200000,
            ConfigCall.SetIncludeUpperTimeBound 2200 100000]).uiMyLowerMSec))
    ∧ (Filter.configured [ConfigCall.SetIncludeLowerTimeBound 2200 200000,
        ConfigCall.SetIncludeUpperTimeBound 2200 100000]).FilterTime
        (MetaDataStruct.mk HEADERFORMAT.BINARY MEASUREMENT_SOURCE.PRIMARY 0 2200 150000 42
          "BESTPOS") = false :=
  ⟨⟨by decide, by decide, by decide, (lex_lt_iff _ _ _ _).mpr (Or.inr ⟨rfl, by decide⟩)⟩,
    FilterTime_lower_after_upper
      (Filter.configured [ConfigCall.SetIncludeLowerTimeBound 2200 200000,
        ConfigCall.SetIncludeUpperTimeBound 2200 100000])
      (MetaDataStruct.mk HEADERFORMAT.BINARY MEASUREMENT_SOURCE.PRIMARY 0 2200 150000 42
        "BESTPOS")
      (by decide) (by decide) (by decide)
      ((lex_lt_iff _ _ _ _).mpr (Or.inr ⟨rfl, by decide⟩))⟩

theorem DoFiltering_returns (f : Filter) (md : MetaDataStruct)
    (hp : f.bMyDecimate = true → f.uiMyDecimationPeriodMS ≠ 0) :
    ∃ b, f.DoFiltering md = some b := by
  unfold Filter.DoFiltering
  split
  · exact ⟨false, rfl⟩
  · split
    · exact ⟨_, rfl⟩
    · apply DoFilteringLoop_isSome
      intro fn _
      cases fn with
      | FilterDecimation => exact FilterDecimation_isSome f md hp
      | FilterTime => exact ⟨_, rfl⟩
      | FilterTimeStatus => exact ⟨_, rfl⟩
      | FilterMessageId => exact ⟨_, rfl⟩
      | FilterMessage => exact ⟨_, rfl⟩

end oem
